import Mathlib

/-!
# A verification development for the GbDetector text classifier

This file embeds the core text-classification engine of the GbDetector
repository (`src/dist/detector.js`) into Lean and proves properties of the
embedded functions.

Modelling conventions:
* JavaScript numbers are modelled as exact rationals (`ℚ`).  Every numeric
  constant appearing in the source is a short decimal, and every comparison
  proved below is decided at a distance from the nearest threshold that is far
  larger than any double-rounding error, so the rational model and IEEE-754
  binary64 agree on all facts established here (in particular `0.2 + 0.3`
  is exactly `0.5` in binary64, as it is in `ℚ`).
* JavaScript strings are modelled as lists of Unicode code points
  (`List Char`).
* `undefined` is modelled by `Option.none` where it can flow into a
  computation (object-table lookups, optional chaining).
* Dynamically typed arguments are modelled by the small universe `JsVal`.
-/

set_option maxRecDepth 10000
set_option maxHeartbeats 2000000

namespace GbDetector

/-- JavaScript strings as lists of code points. -/
abbrev Str := List Char

/-- Code points of a string literal. -/
def str (s : String) : Str := s.data

/-- The JavaScript whitespace class: the characters matched by `\s` and
stripped by `String.prototype.trim` (tab, line terminators, space, NBSP,
the Unicode space separators, and the BOM). -/
def isJsSpace (c : Char) : Bool :=
  (0x9 ≤ c.toNat && c.toNat ≤ 0xd) || c.toNat = 0x20 || c.toNat = 0xa0 ||
  c.toNat = 0x1680 || (0x2000 ≤ c.toNat && c.toNat ≤ 0x200a) ||
  c.toNat = 0x2028 || c.toNat = 0x2029 || c.toNat = 0x202f ||
  c.toNat = 0x205f || c.toNat = 0x3000 || c.toNat = 0xfeff

/-- `String.prototype.toLowerCase`, restricted to its ASCII action (all code
points manipulated by the detector are ASCII; on them the JS function is
exactly ASCII lower-casing). -/
def jsLowerChar (c : Char) : Char :=
  if 'A' ≤ c && c ≤ 'Z' then Char.ofNat (c.toNat + 32) else c

/-- `String.prototype.toLowerCase` on a whole string. -/
def jsLower (s : Str) : Str := s.map jsLowerChar

/-- `String.prototype.toUpperCase` restricted to ASCII (used only by the
case-insensitive regex flag). -/
def jsUpperChar (c : Char) : Char :=
  if 'a' ≤ c && c ≤ 'z' then Char.ofNat (c.toNat - 32) else c

/-- `String.prototype.trim`. -/
def jsTrim (s : Str) : Str :=
  ((s.dropWhile isJsSpace).reverse.dropWhile isJsSpace).reverse

/-- Whether `pre` starts `s` (`String.prototype.startsWith`). -/
def strStartsWith (s pre : Str) : Bool :=
  List.isPrefixOf pre s

/-- `String.prototype.includes` (substring containment). -/
def strIncludes (hay needle : Str) : Bool :=
  strStartsWith hay needle ||
    match hay with
    | [] => false
    | _ :: rest => strIncludes rest needle

/-- First occurrence replacement, `String.prototype.replace` called with a
plain string (not a regex) as its first argument: only the first occurrence
of `needle` is replaced.  If `needle` does not occur the string is returned
unchanged. -/
def replaceFirstSub (s needle repl : Str) : Str :=
  match s with
  | [] => if needle = [] then repl else []
  | c :: rest =>
      if strStartsWith (c :: rest) needle then
        repl ++ (c :: rest).drop needle.length
      else
        c :: replaceFirstSub rest needle repl

/-- Worker for `split(/\s+/)`: `cur = none` means the scan is inside a
whitespace run (whose piece has already been emitted); `cur = some p` holds
the reversed current piece. -/
def jsSplitWsLoop (cur : Option Str) (s : Str) : List Str :=
  match s with
  | [] => [(cur.getD []).reverse]
  | c :: rest =>
      if isJsSpace c then
        match cur with
        | some p => p.reverse :: jsSplitWsLoop none rest
        | none => jsSplitWsLoop none rest
      else
        jsSplitWsLoop (some (c :: cur.getD [])) rest

/-- `String.prototype.split` with the regex `/\s+/`: splits on maximal
whitespace runs; a leading (resp. trailing) run produces a leading
(resp. trailing) empty element, as in JS. -/
def jsSplitWs (s : Str) : List Str := jsSplitWsLoop (some []) s

/-- The dynamically-typed value universe used where the source treats
arguments dynamically.  Numbers printed by `String(...)` are modelled only
for the constructors actually exercised in this development. -/
inductive JsVal where
  | vstr (s : Str)
  | vnum (q : ℚ)
  | vbool (b : Bool)
  | vnull
  | vundef
  | varr (l : List JsVal)

/-- JS `String(x)` coercion.  Integral numbers are printed exactly; the
shortest-round-trip float formatting of non-integral numbers is modelled by
the decimal expansion of the rational (never used at a non-integral input in
this development). -/
def jsString : JsVal → Str
  | .vstr s => s
  | .vbool true => str "true"
  | .vbool false => str "false"
  | .vnull => str "null"
  | .vundef => str "undefined"
  | .vnum q =>
      if q.den = 1 then (toString q.num).data else (toString q.num ++ "/" ++ toString q.den).data
  | .varr _ => []

/-- JS truthiness of a value (only the cases used by `detect`'s guard). -/
def jsTruthy : JsVal → Bool
  | .vstr s => !(s = [])
  | .vnum q => !(q = 0)
  | .vbool b => b
  | .vnull => false
  | .vundef => false
  | .varr _ => true

/-! ## Confidence thresholds (detector.js lines 926-932) -/

/-- `sensitivityFactor = Math.max(1, Math.min(5, sensitivityLevel)) / 3`. -/
def sensitivityFactor (sensitivityLevel : ℚ) : ℚ :=
  max 1 (min 5 sensitivityLevel) / 3

structure ConfidenceThresholds where
  low : ℚ
  medium : ℚ
  high : ℚ
deriving Repr, DecidableEq

/-- The per-call confidence thresholds (detector.js lines 928-932). -/
def confidenceThresholds (sensitivityLevel : ℚ) : ConfidenceThresholds :=
  { low := max 0.45 (0.5 * sensitivityFactor sensitivityLevel)
    medium := max 0.9 (0.8 * sensitivityFactor sensitivityLevel)
    high := max 1.2 (2.5 * sensitivityFactor sensitivityLevel) }

/-! ## Sensitivity cap and final checkpoint normalization
(detector.js lines 854-881 and 1408-1415) -/

/-- `morpoint` (detector.js lines 854-865).  Inputs `≤ 0` are first replaced
by `0`; the object lookup `numberx[inputInt]` yields `undefined` (`none`)
for keys outside `0..5`. -/
def morpoint (inputInt : ℚ) : Option ℚ :=
  let x := if inputInt ≤ 0 then 0 else inputInt
  if x = 0 then some 0
  else if x = 1 then some 5
  else if x = 2 then some 4
  else if x = 3 then some 3
  else if x = 4 then some 2
  else if x = 5 then some 1
  else none

/-- `parseNumber` (detector.js lines 874-881).  The `value === "-"` and
`isNaN` branches cannot fire for a rational input; the comparison
`num > maxim` against an `undefined` maximum is false in JS, leaving `num`
unclamped. -/
def parseNumber (value : ℚ) (maxim : Option ℚ) : ℚ :=
  if value < 0 then 0
  else
    match maxim with
    | some m => if value > m then m else value
    | none => value

/-- `Number.prototype.toFixed(2)` followed by `parseFloat` (line 1415):
rounding to two decimals, ties away from zero toward the larger candidate
(ECMA-262 `toFixed`). -/
def round2 (q : ℚ) : ℚ := (⌊q * 100 + 1/2⌋ : ℚ) / 100

/-- The checkpoint value reported in `detect`'s result (lines 1408-1415):
the raw score clamped by `parseNumber` into `[0, morpoint level]` and then
rounded to two decimals. -/
def reportedCheckpoint (checkpoint sensitivityLevel : ℚ) : ℚ :=
  round2 (parseNumber checkpoint (morpoint sensitivityLevel))

/-! ## Final verdict (detector.js lines 1412-1458) -/

inductive Confidence where
  | cnone
  | clow
  | cmedium
  | chigh
deriving Repr, DecidableEq

/-- The final evaluation of `detect` (lines 1412-1458) as a function of the
pattern-match flag `detected`, the garbage flag, the clamped checkpoint and
the thresholds.  The result object is initialised to
`isGambling = false, confidence = "none"` (lines 1412-1418) and the nested
conditionals only overwrite it in the cases shown; in particular no branch
of the outer conditional fires when `detected` is true but the checkpoint
is below the low threshold. -/
def finalVerdict (detected hasGarbage : Bool) (checkpoint : ℚ)
    (th : ConfidenceThresholds) : Bool × Confidence :=
  if detected || decide (checkpoint ≥ th.low) then
    if checkpoint ≥ th.high then (true, .chigh)
    else if checkpoint ≥ th.medium then (true, .cmedium)
    else if checkpoint ≥ th.low then (true, .clow)
    else (false, .cnone)
  else if hasGarbage then (true, .cmedium)
  else (false, .cnone)

/-! ## Garbage-character detector (detector.js lines 64-72) -/

/-- The class `[^a-zA-Z0-9\s\.,!?]` of line 67. -/
def isGarbageChar (c : Char) : Bool :=
  !(('a' ≤ c && c ≤ 'z') || ('A' ≤ c && c ≤ 'Z') || ('0' ≤ c && c ≤ '9') ||
    isJsSpace c || c = '.' || c = ',' || c = '!' || c = '?')

/-- `isMostlyAsciiGarbage` (detector.js lines 64-72).  Note that the
source's default threshold is `0.6`; `detect` invokes it with an explicit
threshold of `0.45` (line 1003). -/
def isMostlyAsciiGarbage (text : Str) (threshold : ℚ := 0.6) : Bool :=
  if text = [] then false
  else decide (((text.filter isGarbageChar).length : ℚ) / (text.length : ℚ) ≥ threshold)

/-! ## Allowlist filtering (detector.js lines 990-992 and 1274-1280) -/

/-- Membership in `allowSet` (line 992): the allowlist lower-cased, queried
with the lower-cased match. -/
def allowSetHas (allowlist : List Str) (m : Str) : Bool :=
  (allowlist.map jsLower).contains (jsLower m)

/-- The allowlist filter applied to a pattern-match list (line 1276):
only a match whose whole text lower-cases to an allowlist entry is removed. -/
def filterAllowed (allowlist : List Str) (ms : List Str) : List Str :=
  ms.filter (fun m => !allowSetHas allowlist m)

/-! ## The fuzzy matcher (detector.js lines 105-183) -/

/-- The leet-speak substitution map inside `fuzzySearch` (lines 110-114). -/
def fuzzySubstChar (c : Char) : Char :=
  if c = '1' then 'i' else if c = '2' then 'z' else if c = '3' then 'e'
  else if c = '4' then 'a' else if c = '5' then 's' else if c = '6' then 'g'
  else if c = '7' then 't' else if c = '8' then 'b' else if c = '9' then 'g'
  else if c = '0' then 'o' else if c = '!' then 'i' else if c = '&' then 'e'
  else if c = '@' then 'a' else if c = '#' then 'h' else c

/-- `normalize` inside `fuzzySearch` (lines 116-122): lower-case, then
substitute character-wise. -/
def fuzzyNormalize (t : Str) : Str := (jsLower t).map fuzzySubstChar

/-- Inner loop of the `levenshtein` row computation.  At column `j`:
`bs` are the remaining characters of `b` (starting with `b[j-1]`), `bj2` is
`b[j-2]`, `prevRest` is the previous row from index `j-1` on, `pj2` is
`prev[j-2]`, and `cj1` is `curr[j-1]`.  The transposition candidate is the
source's own `prev[j-2] + 1` (row `i-1`), not the textbook `d[i-2][j-2]`. -/
def levRowGo (ai : Char) (aPrev : Option Char) :
    List Char → Option Char → List Nat → Option Nat → Nat → List Nat
  | bj :: brest, bj2, pj1 :: prest, pj2, cj1 =>
      let cost : Nat := if ai = bj then 0 else 1
      let pj := prest.headD 0
      let base := min (cj1 + 1) (min (pj + 1) (pj1 + cost))
      let cj :=
        match aPrev, bj2, pj2 with
        | some ap, some b2, some p2 =>
            if ai = b2 && ap = bj then min base (p2 + 1) else base
        | _, _, _ => base
      cj :: levRowGo ai aPrev brest (some bj) prest (some pj1) cj
  | _, _, _, _, _ => []

/-- Outer loop of `levenshtein`: one row per character of `a`; returns the
final row. -/
def levLoop (bChars : List Char) :
    List Char → Option Char → List Nat → Nat → List Nat
  | [], _, prev, _ => prev
  | ai :: arest, aPrev, prev, i =>
      levLoop bChars arest (some ai) (i :: levRowGo ai aPrev bChars none prev none i) (i + 1)

/-- `levenshtein` inside `fuzzySearch` (lines 124-152): early returns for
equal or empty inputs, the length-difference shortcut returning
`maxDistance + 1`, then the row dynamic program. -/
def fuzzyLevenshtein (maxDistance : ℚ) (a b : Str) : ℚ :=
  if a = b then 0
  else if a.length = 0 then b.length
  else if b.length = 0 then a.length
  else if ((((a.length : ℤ) - b.length).natAbs : ℚ)) > maxDistance then maxDistance + 1
  else ((levLoop b a none (List.range (b.length + 1)) 1).getLastD 0 : ℚ)

/-- `parseFloat(x.toFixed(3))`: rounding to three decimals, ties toward the
larger candidate (ECMA-262 `toFixed`). -/
def round3 (q : ℚ) : ℚ := (⌊q * 1000 + 1/2⌋ : ℚ) / 1000

/-- `calculateScore` (lines 154-161). -/
def calculateScore (q i : Str) (d : ℚ) : ℚ :=
  if d = 0 then 1
  else
    let maxLength : ℚ := max (q.length : ℚ) (i.length : ℚ)
    let baseScore := 1 - d / maxLength
    let containsBonus : ℚ := if strIncludes i q then 0.1 else 0
    let startBonus : ℚ := if strStartsWith i q then 0.2 else 0
    min 1 (baseScore + containsBonus + startBonus)

structure FuzzyResult where
  matched_word : Str
  matched_with : Str
  score : ℚ
deriving Repr, DecidableEq

/-- Stable insertion modelling `Array.prototype.sort` (stable per ES2019)
with comparator `(a, b) => b.score - a.score`: the result is ordered by
descending score, ties keeping the original push order. -/
def insertByScoreDesc (x : FuzzyResult) : List FuzzyResult → List FuzzyResult
  | [] => [x]
  | y :: ys => if x.score ≥ y.score then x :: y :: ys else y :: insertByScoreDesc x ys

/-- Stable sort by descending score. -/
def sortByScoreDesc (l : List FuzzyResult) : List FuzzyResult :=
  l.foldr insertByScoreDesc []

/-- The typed core of `fuzzySearch` (lines 105-183) after its argument
guards: query words are matched against every list item; a triple is pushed
when both the distance and the (unrounded) score pass their thresholds, the
stored score being rounded to three decimals; results are sorted by
descending score. -/
def fuzzySearchCore (list : List Str) (query : Str)
    (maxDistance : ℚ := 2) (minScore : ℚ := 0.5) : List FuzzyResult :=
  if jsTrim query = [] then []
  else
    let normalizedQueryWords := jsSplitWs (fuzzyNormalize query)
    let results := normalizedQueryWords.flatMap (fun word =>
      list.filterMap (fun item =>
        let normalizedItem := fuzzyNormalize item
        let distance := fuzzyLevenshtein maxDistance word normalizedItem
        let score := calculateScore word normalizedItem distance
        if distance ≤ maxDistance ∧ score ≥ minScore then
          some { matched_word := word, matched_with := item, score := round3 score }
        else none))
    sortByScoreDesc results

inductive JsError where
  | typeError (msg : Str)
deriving Repr, DecidableEq

/-- Normalizing each list item in order: the first non-string item raises
`TypeError` (`item.toLowerCase` is not a function). -/
def itemsAsStrings : List JsVal → Except JsError (List Str)
  | [] => .ok []
  | .vstr s :: rest =>
      match itemsAsStrings rest with
      | .ok l => .ok (s :: l)
      | .error e => .error e
  | _ :: _ => .error (.typeError (str "item.toLowerCase is not a function"))

/-- The dynamic surface of `fuzzySearch` (lines 105-183): the two argument
guards of lines 106-107, the blank-query early return of line 108, and the
`TypeError` thrown by `normalize(item)` when a list element is not a string
(`item.toLowerCase` is then not a function).  Since the first query word's
scan normalizes every item in order before anything is returned, a
non-string element always raises before any result escapes; this is
modelled by pre-traversing the item list. -/
def fuzzySearch (list query : JsVal) (maxDistance : ℚ := 2) (minScore : ℚ := 0.5) :
    Except JsError (List FuzzyResult) :=
  match list with
  | .varr items =>
      match query with
      | .vstr q =>
          if jsTrim q = [] then .ok []
          else
            match itemsAsStrings items with
            | .ok strs => .ok (fuzzySearchCore strs q maxDistance minScore)
            | .error e => .error e
      | _ => .error (.typeError (str "Parameter \x22query\x22 must be a string"))
  | _ => .error (.typeError (str "Parameter \x22list\x22 must be an array"))

/-! ## Analysis record and the reconstructed-text fuzzy bonus
(detector.js lines 1161-1175) -/

structure ContactInfo where
  found : Bool := false
  types : List Str := []
  values : List Str := []
deriving Repr, DecidableEq

/-- The `analysis` object of `detect`.  Fields are written only when
`includeAnalysis` is true (the object is `null` otherwise); absent fields
read as falsy, modelled by the defaults below. -/
structure Analysis where
  garbageDetected : Bool := false
  repetitionDetected : Bool := false
  suspiciousUrlDetected : Bool := false
  suspiciousCodeSequences : Bool := false
  evasionTechniques : List Str := []
  evasionScore : ℚ := 0
  contextualIndicators : List Str := []
  contextualScore : ℚ := 0
  contactInfo : Option ContactInfo := none
  containsNonStandardChars : Bool := false
  wordSeparationDetected : Bool := false
  separatedNumbersDetected : Bool := false
  languageSpecificMatches : List Str := []
  languageScore : ℚ := 0
  blockedDomainDetected : Bool := false
  supportingKeywords : List Str := []
  keywordMatchCount : Nat := 0
  contentLengthSuspicious : Bool := false
  longAvgWordLength : Option ℚ := none
deriving Repr, DecidableEq

/-- The reconstructed-text fuzzy bonus (detector.js lines 1161-1175).
The guard reads `fuzzyText && (analysis?.garbageDetected ||
analysis?.wordSeparationDetected || analysis?.containsNonStandardChars)`;
`fuzzyText` is always a (truthy) array, and when `includeAnalysis` is false
the `analysis` object is `null`, so every optional-chained flag reads
false.  The loop takes the first element whose `matched_with` is a truthy
string occurring in `keyword`; its parallel weight decides the increment
(`keyword` and `scorepoint` are parallel arrays of equal length). -/
def fuzzyReconBoost (analysis : Option Analysis) (fuzzyText : List FuzzyResult)
    (keyword : List Str) (scorepoint : List ℚ) (checkpoint : ℚ) : ℚ :=
  let flagged :=
    match analysis with
    | some a => a.garbageDetected || a.wordSeparationDetected || a.containsNonStandardChars
    | none => false
  if flagged then
    match fuzzyText.find? (fun e => !(e.matched_with = []) && keyword.contains e.matched_with) with
    | some e =>
        let sp := scorepoint.getD (keyword.indexOf e.matched_with) 0
        checkpoint + (if sp ≥ 1 then 0.06 else sp)
    | none => checkpoint
  else checkpoint

/-! ## A JS-regular-expression engine

The detector builds and applies concrete JS regexes.  They are embedded as
abstract syntax (`Regex`) plus a backtracking matcher implementing the
ECMA-262 semantics for the constructs the source uses: character classes,
`\w`/`\d`/`\s`/`\b`, alternation (leftmost preference), greedy and lazy
bounded/unbounded quantifiers with the empty-iteration exit rule,
capturing groups, negative lookahead, the `i` flag (ASCII
canonicalization) and the `g` flag (successive non-overlapping leftmost
matches, advancing by one on an empty match).

The matcher consumes fuel at every recursive call; the fuel supplied by
the top-level drivers exceeds the maximal possible recursion depth of the
search, and exhaustion — which cannot occur — is reported as a distinct
outcome (`MOut.out`) rather than silently treated as a mismatch, so every
concrete evaluation below certifies that the cutoff was not reached. -/

/-- A character-class element: a single character or an inclusive range. -/
inductive ClsItem where
  | single (c : Char)
  | range (lo hi : Char)
deriving Repr, DecidableEq

/-- Regex abstract syntax. -/
inductive Regex where
  | eps
  | lit (c : Char)
  | cls (neg : Bool) (items : List ClsItem)
  | dot
  | seq (r1 r2 : Regex)
  | alt (r1 r2 : Regex)
  | rep (r : Regex) (lo : Nat) (hi : Option Nat) (lazy : Bool)
  | grp (idx : Nat) (r : Regex)
  | wb
  | nla (r : Regex)
deriving Repr, DecidableEq

/-- ES canonicalization for the `i` flag restricted to ASCII (the classes
and literals of all source regexes are ASCII apart from emoji/CJK
singletons, on which upper-casing is the identity): a class element or
literal matches a character when their upper-cased forms agree; a range
additionally admits a character whose lower- or upper-cased variant falls
inside it. -/
def clsItemMatches (ci : Bool) (c : Char) : ClsItem → Bool
  | .single m => m = c || (ci && jsUpperChar m = jsUpperChar c)
  | .range lo hi =>
      (lo ≤ c && c ≤ hi) ||
      (ci && ((lo ≤ jsLowerChar c && jsLowerChar c ≤ hi) ||
              (lo ≤ jsUpperChar c && jsUpperChar c ≤ hi)))

/-- Literal match under an optional `i` flag. -/
def litMatches (ci : Bool) (c x : Char) : Bool :=
  c = x || (ci && jsUpperChar c = jsUpperChar x)

/-- The `\w` predicate of ECMA-262: `[A-Za-z0-9_]`. -/
def isWordChar (c : Char) : Bool :=
  ('a' ≤ c && c ≤ 'z') || ('A' ≤ c && c ≤ 'Z') || ('0' ≤ c && c ≤ '9') || c = '_'

/-- Whether a `\b` assertion holds between `prev` and the start of `s`. -/
def wordBoundary (prev : Option Char) (s : Str) : Bool :=
  (match prev with | some c => isWordChar c | none => false) !=
  (match s with | c :: _ => isWordChar c | [] => false)

/-- A JS line terminator (not matched by `.`). -/
def isLineTerm (c : Char) : Bool :=
  c.toNat = 0xa || c.toNat = 0xd || c.toNat = 0x2028 || c.toNat = 0x2029

/-- Captured substrings, most recent first (a later capture of the same
group shadows an earlier one, as in ES). -/
abbrev Caps := List (Nat × Str)

/-- The value a capture group contributes to a replacement: its text, or
the empty string when the group did not participate. -/
def capGet (caps : Caps) (idx : Nat) : Str :=
  ((caps.find? (fun p => p.1 = idx)).map (fun p => p.2)).getD []

/-- Matcher outcome: success carries the suffix after the whole match and
the captures; `out` reports fuel exhaustion (never reached in this
development, see the section comment). -/
inductive MOut where
  | ok (rest : Str) (caps : Caps)
  | fail
  | out
deriving Repr, DecidableEq

/-- The backtracking matcher, in continuation-passing style.  `prev` is
the character immediately before the current position (for `\b`).  The
quantifier case implements the ES `RepeatMatcher`: mandatory iterations
first, then (greedy or lazy) optional iterations, an optional iteration
that consumes nothing being abandoned. -/
def mtch (fuel : Nat) (ci : Bool) (r : Regex) (prev : Option Char) (s : Str)
    (caps : Caps) (k : Option Char → Str → Caps → MOut) : MOut :=
  match fuel with
  | 0 => .out
  | fuel + 1 =>
    match r with
    | .eps => k prev s caps
    | .lit c =>
        match s with
        | [] => .fail
        | x :: rest => if litMatches ci c x then k (some x) rest caps else .fail
    | .cls neg items =>
        match s with
        | [] => .fail
        | x :: rest =>
            let m := items.any (clsItemMatches ci x)
            if (if neg then !m else m) then k (some x) rest caps else .fail
    | .dot =>
        match s with
        | [] => .fail
        | x :: rest => if isLineTerm x then .fail else k (some x) rest caps
    | .seq a b =>
        mtch fuel ci a prev s caps (fun p2 s2 c2 => mtch fuel ci b p2 s2 c2 k)
    | .alt a b =>
        match mtch fuel ci a prev s caps k with
        | .fail => mtch fuel ci b prev s caps k
        | o => o
    | .grp idx a =>
        mtch fuel ci a prev s caps (fun p2 s2 c2 =>
          k p2 s2 ((idx, s.take (s.length - s2.length)) :: c2))
    | .wb => if wordBoundary prev s then k prev s caps else .fail
    | .nla a =>
        match mtch fuel ci a prev s caps (fun _ _ c2 => .ok [] c2) with
        | .fail => k prev s caps
        | .out => .out
        | .ok _ _ => .fail
    | .rep a lo hi lazy =>
        match lo with
        | l + 1 =>
            mtch fuel ci a prev s caps (fun p2 s2 c2 =>
              mtch fuel ci (.rep a l (hi.map (fun h => h - 1)) lazy) p2 s2 c2 k)
        | 0 =>
            match hi with
            | some 0 => k prev s caps
            | _ =>
              let hi2 := hi.map (fun h => h - 1)
              if lazy then
                match k prev s caps with
                | .fail =>
                    mtch fuel ci a prev s caps (fun p2 s2 c2 =>
                      if s2.length = s.length then .fail
                      else mtch fuel ci (.rep a 0 hi2 lazy) p2 s2 c2 k)
                | o => o
              else
                match mtch fuel ci a prev s caps (fun p2 s2 c2 =>
                      if s2.length = s.length then .fail
                      else mtch fuel ci (.rep a 0 hi2 lazy) p2 s2 c2 k) with
                | .fail => k prev s caps
                | o => o

/-- Structural size of a regex, used to size the fuel. -/
def regexSize : Regex → Nat
  | .eps => 1
  | .lit _ => 1
  | .cls _ _ => 1
  | .dot => 1
  | .seq a b => regexSize a + regexSize b + 1
  | .alt a b => regexSize a + regexSize b + 1
  | .rep a _ _ _ => regexSize a + 1
  | .grp _ a => regexSize a + 1
  | .wb => 1
  | .nla a => regexSize a + 1

/-- Fuel exceeding any possible recursion depth of the search on `s`. -/
def fuelFor (r : Regex) (s : Str) : Nat :=
  (regexSize r + 16) * (s.length + regexSize r + 16)

/-- One leftmost-match attempt from the current position onward. -/
inductive ScanOut where
  | fuelout
  | nomatch
  | found (before matched : Str) (caps : Caps) (rest : Str) (prevAtEnd : Option Char)
deriving Repr, DecidableEq

/-- Leftmost match search: try at the current position, else advance. -/
def regexScan (fuel : Nat) (ci : Bool) (r : Regex) :
    Option Char → Str → ScanOut
  | prev, [] =>
      match mtch fuel ci r prev [] [] (fun _ rest caps => .ok rest caps) with
      | .out => .fuelout
      | .ok _ caps => .found [] [] caps [] prev
      | .fail => .nomatch
  | prev, c :: cs =>
      match mtch fuel ci r prev (c :: cs) [] (fun _ rest caps => .ok rest caps) with
      | .out => .fuelout
      | .ok rest caps =>
          let m := (c :: cs).take ((c :: cs).length - rest.length)
          .found [] m caps rest (match m.getLast? with | some x => some x | none => prev)
      | .fail =>
          match regexScan fuel ci r (some c) cs with
          | .found before m caps rest p => .found (c :: before) m caps rest p
          | o => o

/-- One extracted match: the gap before it, its text, and its captures. -/
structure MatchInfo where
  before : Str
  matched : Str
  caps : Caps
deriving Repr, DecidableEq

/-- Iterating a global regex: successive leftmost matches, an empty match
advancing the position by one character (the `lastIndex++` rule).  The
iteration budget `n` is at least `|s| + 1`, which successive consumption
makes sufficient; its exhaustion would surface as `none`. -/
def regexIterGo (fuel : Nat) (ci : Bool) (r : Regex) :
    Nat → Option Char → Str → Option (List MatchInfo × Str)
  | 0, _, _ => none
  | n + 1, prev, s =>
      match regexScan fuel ci r prev s with
      | .fuelout => none
      | .nomatch => some ([], s)
      | .found before m caps rest p =>
          if m = [] then
            match rest with
            | [] => some ([⟨before, m, caps⟩], [])
            | c :: cs =>
                match regexIterGo fuel ci r n (some c) cs with
                | some (ms, fin) =>
                    match ms with
                    | [] => some ([⟨before, m, caps⟩], c :: fin)
                    | m1 :: mrest =>
                        some (⟨before, m, caps⟩ :: ⟨c :: m1.before, m1.matched, m1.caps⟩ :: mrest, fin)
                | none => none
          else
            match regexIterGo fuel ci r n p rest with
            | some (ms, fin) => some (⟨before, m, caps⟩ :: ms, fin)
            | none => none

/-- All matches of a global regex together with the trailing text. -/
def regexIter (ci : Bool) (r : Regex) (s : Str) : Option (List MatchInfo × Str) :=
  regexIterGo (fuelFor r s) ci r (s.length + 1) none s

/-- `String.prototype.match` with a `g` regex, as the list of matched
substrings.  The empty list models the `null` JS returns when there is no
match (a successful global match never yields an empty array). -/
def jsMatch (ci : Bool) (r : Regex) (s : Str) : Option (List Str) :=
  match regexIter ci r s with
  | some (ms, _) => some (ms.map (fun m => m.matched))
  | none => none

/-- `String.prototype.matchAll`-style iteration keeping captures. -/
def jsMatchFull (ci : Bool) (r : Regex) (s : Str) : Option (List MatchInfo) :=
  match regexIter ci r s with
  | some (ms, _) => some ms
  | none => none

/-- `RegExp.prototype.test` / a non-global `match`'s success. -/
def jsTest (ci : Bool) (r : Regex) (s : Str) : Option Bool :=
  match regexScan (fuelFor r s) ci r none s with
  | .fuelout => none
  | .nomatch => some false
  | .found _ _ _ _ _ => some true

/-- `String.prototype.replace` with a `g` regex and a replacement function
of the match text and captures. -/
def jsReplace (ci : Bool) (r : Regex) (repl : Str → Caps → Str) (s : Str) :
    Option Str :=
  match regexIter ci r s with
  | some (ms, fin) =>
      some ((ms.flatMap (fun m => m.before ++ repl m.matched m.caps)) ++ fin)
  | none => none

/-! ## Regex construction helpers -/

/-- Sequencing of a list of regexes. -/
def seqList : List Regex → Regex
  | [] => .eps
  | [r] => r
  | r :: rest => .seq r (seqList rest)

/-- Alternation of a non-empty list, preferring earlier entries. -/
def altList : List Regex → Regex
  | [] => .cls false []
  | [r] => r
  | r :: rest => .alt r (altList rest)

/-- A literal string as a regex. -/
def rlit (s : String) : Regex := seqList (s.data.map .lit)

/-- A literal `Str` as a regex (used for escaped dynamic terms: the
source's `createPatternRegex` escapes every metacharacter of each term, so
an escaped term denotes exactly its literal character sequence). -/
def rlitStr (s : Str) : Regex := seqList (s.map .lit)

def ropt (r : Regex) : Regex := .rep r 0 (some 1) false
def rstar (r : Regex) : Regex := .rep r 0 none false
def rplus (r : Regex) : Regex := .rep r 1 none false
def rbetween (m n : Nat) (r : Regex) : Regex := .rep r m (some n) false
def ratleast (m : Nat) (r : Regex) : Regex := .rep r m none false

/-- The class items of `\s` (identical to `isJsSpace`). -/
def sItems : List ClsItem :=
  [.range (Char.ofNat 0x9) (Char.ofNat 0xd), .single ' ', .single (Char.ofNat 0xa0),
   .single (Char.ofNat 0x1680), .range (Char.ofNat 0x2000) (Char.ofNat 0x200a),
   .single (Char.ofNat 0x2028), .single (Char.ofNat 0x2029),
   .single (Char.ofNat 0x202f), .single (Char.ofNat 0x205f),
   .single (Char.ofNat 0x3000), .single (Char.ofNat 0xfeff)]

/-- The class items of `\w`. -/
def wItems : List ClsItem :=
  [.range 'a' 'z', .range 'A' 'Z', .range '0' '9', .single '_']

def rs : Regex := .cls false sItems
def rw : Regex := .cls false wItems
def rd : Regex := .cls false [.range '0' '9']
def razlo : ClsItem := .range 'a' 'z'
def razhi : ClsItem := .range 'A' 'Z'
def rdig : ClsItem := .range '0' '9'
def letterCls : Regex := .cls false [razlo, razhi]
def alnumCls : Regex := .cls false [razlo, razhi, rdig]

/-! ## The pattern families (detector.js lines 487-508 and 1117-1126) -/

/-- `createPatternRegex(terms, loose)` (lines 487-498).  Each term is
escaped and the escaped alternation is wrapped:
strict — an optional prefix of a letter plus up to 4 of `[a-zA-Z_+-]`,
word-boundary anchored, an optional suffix of up to 4 of `[a-zA-Z_+-]`
ending in a letter, then any digits;
loose — the same with alphanumeric prefix/suffix edges and no word
boundary.  Empty term lists yield no pattern (`none`), line 488. -/
def createPatternRegex (terms : List Str) (loose : Bool := false) : Option Regex :=
  if terms = [] then none
  else
    let stems := altList (terms.map rlitStr)
    if loose then
      some (seqList
        [ropt (.seq (.cls false [razlo, razhi, rdig])
            (rbetween 0 4 (.cls false [razlo, razhi, rdig, .single '_', .single '+', .single '-'])))
        , stems
        , ropt (.seq (rbetween 0 4 (.cls false [razlo, razhi, rdig, .single '_', .single '+', .single '-']))
            (.cls false [razlo, razhi, rdig]))
        , rstar rd])
    else
      some (seqList
        [.wb
        , ropt (.seq letterCls
            (rbetween 0 4 (.cls false [razlo, razhi, .single '_', .single '+', .single '-'])))
        , stems
        , ropt (.seq (rbetween 0 4 (.cls false [razlo, razhi, .single '_', .single '+', .single '-']))
            letterCls)
        , rstar rd])

/-- `TinyPatternRegex(terms)` (lines 499-508):
`([a-zA-Z]{2,10})?<terms>([a-zA-Z]{2,10})?(?:[0-9]{2,5})?`. -/
def TinyPatternRegex (terms : List Str) : Option Regex :=
  if terms = [] then none
  else
    some (seqList
      [ropt (.grp 1 (rbetween 2 10 letterCls))
      , altList (terms.map rlitStr)
      , ropt (.grp 2 (rbetween 2 10 letterCls))
      , ropt (rbetween 2 5 rd)])

/-- The hardcoded `standardPatternRegex` of lines 1118-1121:
the first alternative is `\b([A-Z]?[a-zA-Z_+-]{2,}\d{2,10}\b(?!\.))`, the
second a gambling-stem alternation with an optional short suffix (both
under the `i` flag). -/
def standardPatternRegex : Regex :=
  .alt
    (.seq .wb (.grp 1 (seqList
      [ropt (.cls false [razhi])
      , ratleast 2 (.cls false [razlo, razhi, .single '_', .single '+', .single '-'])
      , rbetween 2 10 rd
      , .wb
      , .nla (.lit '.')])))
    (.seq
      (.grp 2 (altList [rlit "slot", rlit "casino", rlit "gambling", rlit "bet",
        rlit "poker", rlit "jackpot", rlit "joker", rlit "zeus", rlit "toto", rlit "judi"]))
      (ropt (.seq (rbetween 0 4 (.cls false [razlo, razhi, .single '_', .single '+', .single '-']))
        letterCls)))

/-! ## Totalizing wrappers

The fuel cutoff of the engine is unreachable (see the engine section
comment); these wrappers make the regex operations total with the noted
fallbacks.  Every concrete string this development evaluates them on was
additionally checked to produce a `some` result. -/

def jsReplaceT (ci : Bool) (r : Regex) (repl : Str → Caps → Str) (s : Str) : Str :=
  (jsReplace ci r repl s).getD s

def jsMatchT (ci : Bool) (r : Regex) (s : Str) : List Str :=
  (jsMatch ci r s).getD []

def jsMatchFullT (ci : Bool) (r : Regex) (s : Str) : List MatchInfo :=
  (jsMatchFull ci r s).getD []

def jsTestT (ci : Bool) (r : Regex) (s : Str) : Bool :=
  (jsTest ci r s).getD false

/-- The first match of a non-global regex (`String.prototype.match`
without `g` returns only it). -/
def jsFirstMatch (ci : Bool) (r : Regex) (s : Str) : Option Str :=
  match regexScan (fuelFor r s) ci r none s with
  | .found _ m _ _ _ => some m
  | _ => none

/-! ## Word runs

`/\b\w+\b/g` matches exactly the maximal word-character runs of a string
(`\w+` is greedy and both boundaries hold at the edges of a maximal run);
the runs are extracted directly for reuse. -/

def wordRunsGo (cur : Option Str) : Str → List Str
  | [] => match cur with | some w => [w.reverse] | none => []
  | x :: rest =>
      if isWordChar x then
        wordRunsGo (some (x :: (cur.getD []))) rest
      else
        match cur with
        | some w => w.reverse :: wordRunsGo none rest
        | none => wordRunsGo none rest

/-- The list matched by `text.match(/\b\w+\b/g)` (empty list for `null`). -/
def jsWords (s : Str) : List Str := wordRunsGo none s

/-- Worker for `mapWordRuns`, carrying the reversed current word run. -/
def mapWordRunsGo (f : Str → Str) (cur : Option Str) : Str → Str
  | [] => match cur with | some w => f w.reverse | none => []
  | x :: rest =>
      if isWordChar x then mapWordRunsGo f (some (x :: cur.getD [])) rest
      else
        match cur with
        | some w => f w.reverse ++ x :: mapWordRunsGo f none rest
        | none => x :: mapWordRunsGo f none rest

/-- `String.prototype.replace(/\b\w+\b/g, f)`: each maximal word run is
replaced by `f` applied to it, other characters are kept. -/
def mapWordRuns (f : Str → Str) (s : Str) : Str := mapWordRunsGo f none s

/-! ## Text normalizer (detector.js lines 51-56, 190-247, 354-409, 527-544) -/

/-- `cleanText` (lines 51-56).  `String.normalize` (NFKD/NFKC) is a
platform Unicode-table function; it is the identity on the ASCII strings
this development evaluates `cleanText` on and is modelled as the identity
here, leaving the source's own step: removing the combining marks
U+0300-U+036F. -/
def cleanText (text : Str) : Str :=
  text.filter (fun c => !(0x300 ≤ c.toNat && c.toNat ≤ 0x36f))

/-- The separator class `[\s.*_\-|+=:;,']` used in several patterns. -/
def sepItems : List ClsItem :=
  sItems ++ [.single '.', .single '*', .single '_', .single '-', .single '|',
    .single '+', .single '=', .single ':', .single ';', .single ',',
    .single (Char.ofNat 0x27)]

/-- The look-alike map of `cleanWeirdPatterns` (lines 204-219), applied as
successive global single-character replacements; no target is a later
source, so the composition is a single character map. -/
def weirdCharSubst (c : Char) : Char :=
  if c = '¢' then 'c' else if c = '€' then 'e' else if c = '£' then 'l'
  else if c = '¥' then 'y' else if c = '@' then 'a' else if c = '5' then 's'
  else if c = '3' then 'e' else if c = '1' then 'i' else if c = '0' then 'o'
  else if c = '4' then 'a' else if c = '7' then 't' else if c = '6' then 'g'
  else if c = '9' then 'g' else if c = '8' then 'b' else c

/-- `cleanWeirdPatterns` (lines 190-226): collapse whitespace and trim;
drop a dot between word characters (`/(\w)\s*\.\s*(\w)/g`); drop a run of
separators between word characters (`/(\w)[\s.*_\-|+=:;,']+(\w)/g`); glue
three space-separated word characters (`/\s+(\w)\s+(\w)\s+(\w)\s+/g`);
then apply the look-alike substitutions. -/
def cleanWeirdPatterns (text : Str) : Str :=
  let t1 := jsTrim (jsReplaceT false (rplus rs) (fun _ _ => [' ']) text)
  let t2 := jsReplaceT false
    (seqList [.grp 1 rw, rstar rs, .lit '.', rstar rs, .grp 2 rw])
    (fun _ c => capGet c 1 ++ capGet c 2) t1
  let t3 := jsReplaceT false
    (seqList [.grp 1 rw, rplus (.cls false sepItems), .grp 2 rw])
    (fun _ c => capGet c 1 ++ capGet c 2) t2
  let t4 := jsReplaceT false
    (seqList [rplus rs, .grp 1 rw, rplus rs, .grp 2 rw, rplus rs, .grp 3 rw, rplus rs])
    (fun _ c => capGet c 1 ++ capGet c 2 ++ capGet c 3) t3
  t4.map weirdCharSubst

/-- `combineShortWords` (lines 236-247): two passes of
`/\b([a-zA-Z]{1,3})\s+([a-zA-Z]{1,3})\b/g → $1$2`, then one pass of the
three-word variant. -/
def combineShortWords (text : Str) : Str :=
  let pairPat := seqList [.wb, .grp 1 (rbetween 1 3 letterCls), rplus rs,
    .grp 2 (rbetween 1 3 letterCls), .wb]
  let r1 := jsReplaceT false pairPat (fun _ c => capGet c 1 ++ capGet c 2) text
  let r2 := jsReplaceT false pairPat (fun _ c => capGet c 1 ++ capGet c 2) r1
  jsReplaceT false
    (seqList [.wb, .grp 1 (rbetween 1 3 letterCls), rplus rs,
      .grp 2 (rbetween 1 3 letterCls), rplus rs, .grp 3 (rbetween 1 3 letterCls), .wb])
    (fun _ c => capGet c 1 ++ capGet c 2 ++ capGet c 3) r2

/-- `hasSeparatedWords` (lines 515-520). -/
def hasSeparatedWords (text : Str) : Bool :=
  jsTestT false (seqList [.wb, letterCls, rplus rs, letterCls, .wb]) text ||
  jsTestT false (seqList [.wb, letterCls,
    rbetween 1 2 (.cls true ([razlo, razhi, rdig] ++ sItems)),
    letterCls, .wb]) text ||
  jsTestT false (seqList [.wb, .grp 1 letterCls, .cls false sepItems,
    .grp 2 letterCls, .wb]) text

/-- The class `[.\-_*|+=:;,']` (no whitespace) of
`reconstructSeparatedWords`. -/
def sepNoWsItems : List ClsItem :=
  [.single '.', .single '-', .single '_', .single '*', .single '|',
   .single '+', .single '=', .single ':', .single ';', .single ',',
   .single (Char.ofNat 0x27)]

/-- `reconstructSeparatedWords` (lines 527-544): collapse 4-, 3-, then
2-letter whitespace-separated runs; collapse 2- and 3-letter
separator-joined runs; then, if the probe
`/\b([a-zA-Z])[.\-_*|+=:;,']([a-zA-Z])[.\-_*|+=:;,']([a-zA-Z])[.\-_*|+=:;,']/`
fires, collapse 4-letter separator-joined runs keeping letters only. -/
def reconstructSeparatedWords (text : Str) : Str :=
  let sep := .cls false sepNoWsItems
  let g := fun (n : Nat) (c : Caps) =>
    (List.range n).flatMap (fun i => capGet c (i + 1))
  let r1 := jsReplaceT true
    (seqList [.wb, .grp 1 letterCls, rplus rs, .grp 2 letterCls, rplus rs,
      .grp 3 letterCls, rplus rs, .grp 4 letterCls, .wb])
    (fun _ c => g 4 c) text
  let r2 := jsReplaceT true
    (seqList [.wb, .grp 1 letterCls, rplus rs, .grp 2 letterCls, rplus rs,
      .grp 3 letterCls, .wb])
    (fun _ c => g 3 c) r1
  let r3 := jsReplaceT true
    (seqList [.wb, .grp 1 letterCls, rplus rs, .grp 2 letterCls, .wb])
    (fun _ c => g 2 c) r2
  let r4 := jsReplaceT true
    (seqList [.wb, .grp 1 letterCls, sep, .grp 2 letterCls, .wb])
    (fun _ c => g 2 c) r3
  let r5 := jsReplaceT true
    (seqList [.wb, .grp 1 letterCls, sep, .grp 2 letterCls, sep, .grp 3 letterCls, .wb])
    (fun _ c => g 3 c) r4
  if jsTestT false
      (seqList [.wb, .grp 1 letterCls, sep, .grp 2 letterCls, sep, .grp 3 letterCls, sep]) r5 then
    jsReplaceT true
      (seqList [.wb, .grp 1 letterCls, .grp 2 sep, .grp 3 letterCls, .grp 4 sep,
        .grp 5 letterCls, .grp 6 sep, .grp 7 letterCls, .wb])
      (fun _ c => capGet c 1 ++ capGet c 3 ++ capGet c 5 ++ capGet c 7) r5
  else r5

/-- The digit-symbol substitution map of `convertCommentFixed`
(lines 362-387), applied to the characters of the class
`[0-9!&@#$?+*_%|]` (the map is total on that class, so the
`|| match` fallback never fires). -/
def convertSubstChar (c : Char) : Char :=
  if c = '1' then 'i' else if c = '2' then 'z' else if c = '3' then 'e'
  else if c = '4' then 'a' else if c = '5' then 's' else if c = '6' then 'g'
  else if c = '7' then 't' else if c = '8' then 'b' else if c = '9' then 'g'
  else if c = '0' then 'o' else if c = '!' then 'i' else if c = '&' then 'e'
  else if c = '@' then 'a' else if c = '#' then 'h' else if c = '$' then 's'
  else if c = '?' then 'q' else if c = '+' then 't' else if c = '*' then 'x'
  else if c = '_' then 'l' else if c = '%' then 'o' else if c = '|' then 'l'
  else c

/-- Membership in the class `[0-9!&@#$?+*_%|]`. -/
def isConvertible (c : Char) : Bool :=
  ('0' ≤ c && c ≤ '9') || c = '!' || c = '&' || c = '@' || c = '#' ||
  c = '$' || c = '?' || c = '+' || c = '*' || c = '_' || c = '%' || c = '|'

/-- `convertCommentFixed` (lines 354-391): per word token, substitute the
class characters in all but the last `ignoreLastDigits` characters, the
untouched suffix kept verbatim; tokens not longer than `ignoreLastDigits`
are kept whole. -/
def convertCommentFixed (comment : Str) (ignoreLastDigits : Nat := 0) : Str :=
  mapWordRuns (fun w =>
    if w.length ≤ ignoreLastDigits then w
    else
      (w.take (w.length - ignoreLastDigits)).map
        (fun c => if isConvertible c then convertSubstChar c else c) ++
      w.drop (w.length - ignoreLastDigits)) comment

/-- `mergeTextWithTrailingNumbers` (lines 398-409): the three successive
global replacements; the digits of the second capture of the first pattern
are `nums.match(/\d+/g)` joined, i.e. all its digits in order. -/
def mergeTextWithTrailingNumbers (text : Str) : Str :=
  let stem := seqList [ropt (.cls false [razhi]),
    ratleast 2 (.cls false [razlo, razhi, .single '_', .single '+', .single '-']),
    rbetween 0 10 rd]
  let t1 := jsReplaceT false
    (seqList [.wb, .grp 1 stem, .grp 2 (rplus (.seq (rplus rs) (rplus rd))),
      .wb, .nla (.lit '.')])
    (fun _ c => capGet c 1 ++ (capGet c 2).filter (fun ch => '0' ≤ ch && ch ≤ '9')) text
  let t2 := jsReplaceT false
    (seqList [.wb, .grp 1 stem,
      rplus (.cls false (sItems ++ [.single '.', .single '-'])), .grp 2 (rplus rd), .wb])
    (fun _ c => capGet c 1 ++ capGet c 2) t1
  jsReplaceT false
    (seqList [.wb,
      .grp 1 (seqList [ropt (.cls false [razhi]),
        ratleast 2 (.cls false [razlo, razhi, .single '_', .single '+', .single '-'])]),
      rplus rs, .grp 2 (rplus rd), rplus rs,
      .grp 3 (ratleast 2 (.cls false [razlo, razhi, .single '_', .single '+', .single '-'])), .wb])
    (fun _ c => capGet c 1 ++ capGet c 2 ++ capGet c 3) t2

/-! ## Signal detectors (detector.js lines 80-103, 254-346, 551-759) -/

/-- Maximal runs of a repeated character as matched by `/(.)\1{3,}/g`
(hand-compiled: the backreference is the only construct the engine does
not model).  A global match returns, for each maximal run of length `≥ 4`
of a non-line-terminator character (`.` excludes line terminators),
exactly that run. -/
def repeatRuns : Option (Char × Nat) → Str → List Str
  | none, [] => []
  | some (c, n), [] =>
      if n ≥ 4 && !isLineTerm c then [List.replicate n c] else []
  | none, x :: rest => repeatRuns (some (x, 1)) rest
  | some (c, n), x :: rest =>
      if x = c then repeatRuns (some (c, n + 1)) rest
      else
        (if n ≥ 4 && !isLineTerm c then [List.replicate n c] else []) ++
          repeatRuns (some (x, 1)) rest

/-- Overlapping three-word phrases (lines 94-97). -/
def phrasesOf : List Str → List Str
  | a :: b :: c :: rest => (a ++ [' '] ++ b ++ [' '] ++ c) :: phrasesOf (b :: c :: rest)
  | _ => []

/-- `hasAbnormalRepetition` (lines 80-103). -/
def hasAbnormalRepetition (text : Str) (threshold : ℚ := 0.4) : Bool :=
  if text.length < 5 then false
  else
    let repeated := repeatRuns none text
    if repeated ≠ [] ∧ ((repeated.flatten.length : ℚ) / (text.length : ℚ) > threshold) then
      true
    else
      let words := jsWords (jsLower text)
      if words.length ≥ 5 ∧ ((words.dedup.length : ℚ) / (words.length : ℚ) < 0.5) then
        true
      else if words.length ≥ 9 then
        let phrases := phrasesOf words
        decide (phrases.length ≥ 3 ∧
          ((phrases.dedup.length : ℚ) / (phrases.length : ℚ) < 0.7))
      else false

/-- JS `split` with the separator string `"."`. -/
def jsSplitDotGo (cur : Str) : Str → List Str
  | [] => [cur.reverse]
  | c :: rest =>
      if c = '.' then cur.reverse :: jsSplitDotGo [] rest
      else jsSplitDotGo (c :: cur) rest

def jsSplitDot (s : Str) : List Str := jsSplitDotGo [] s

/-- The nine URL regexes of `hasSuspiciousUrlPatterns` (lines 256-266). -/
def urlPatterns : List Regex :=
  [ seqList [.wb, rplus rw, .lit '.', .grp 1 (altList
      [rlit "com", rlit "net", rlit "io", rlit "xyz", rlit "site", rlit "online",
       rlit "id", rlit "org", rlit "gz", rlit "en", rlit "uk", rlit "int",
       rlit "edu", rlit "gov", rlit "ren", rlit "xin",
       seqList [ropt (.cls false [razhi]),
         rbetween 2 8 (.cls false [razlo, razhi, .single '_', .single '+', .single '-'])]])]
  , seqList [.wb, rlit "bit", .lit '.', rlit "ly", .lit '/', rplus rw]
  , seqList [rplus rw, rstar rs, .lit '.', rstar rs, rplus rw, rstar rs, .lit '/', rstar rs, rplus rw]
  , seqList [.lit 'h', rstar rs, .lit 't', rstar rs, .lit 't', rstar rs, .lit 'p', ropt (.lit 's')]
  , seqList [.lit 'w', rstar rs, .lit 'w', rstar rs, .lit 'w', rstar rs, .lit '.', rstar rs, rplus rw]
  , seqList [.wb, altList
      [seqList [.lit 't', ropt (.lit '.'), rlit "me"]
      , seqList [.lit 't', ropt (.lit '.'), rlit "ly"]
      , rlit "is.gd", rlit "goo.gl", rlit "v.gd", rlit "bit.ly", rlit "tinyurl"]]
  , seqList [.wb, rlit "wa", .lit '.', rlit "me", .lit '/', rplus rd]
  , seqList [.wb, .lit 't', ropt (.lit '.'), .lit 'g', .lit '/', rplus rw]
  , seqList [.wb, rlit "link", ropt (.lit '.'), rlit "in", .lit '/', rlit "bio"] ]

/-- The derived domain shape `/\b([a-zA-Z0-9_-]+)[\s.*_\-|+=:;]+([a-zA-Z]{2,5})\b/g`
of line 269. -/
def domainShapeRegex : Regex :=
  seqList [.wb, .grp 1 (rplus (.cls false [razlo, razhi, rdig, .single '_', .single '-'])),
    rplus (.cls false (sItems ++ [.single '.', .single '*', .single '_', .single '-',
      .single '|', .single '+', .single '=', .single ':', .single ';'])),
    .grp 2 (rbetween 2 5 letterCls), .wb]

def commonTLDs : List Str :=
  [str "com", str "net", str "org", str "io", str "co", str "xyz", str "site",
   str "online", str "app", str "vip", str "biz"]

/-- `hasSuspiciousUrlPatterns` (lines 254-283). -/
def hasSuspiciousUrlPatterns (text : Str) : Bool :=
  let potentialDomains := (jsMatchFullT false domainShapeRegex text).map
    (fun m => capGet m.caps 1 ++ [Char.ofNat 0x2e] ++ capGet m.caps 2)
  let hasSuspiciousDomain := potentialDomains.any (fun domain =>
    let parts := jsSplitDot domain
    if parts.length < 2 then false
    else
      commonTLDs.contains
        (((jsLower (parts.getLastD [])).reverse.dropWhile isJsSpace).reverse))
  urlPatterns.any (fun p => jsTestT true p text) || hasSuspiciousDomain

/-- The emoji class of line 553, as the set of its code points.  The
source regex lacks the `u` flag and therefore operates on UTF-16 code
units; for the BMP-only texts this development evaluates, the code-point
model coincides. -/
def emojiItems : List ClsItem :=
  [.single (Char.ofNat 0x1f3b0), .single (Char.ofNat 0x1f3b2), .single (Char.ofNat 0x1f3af),
   .single (Char.ofNat 0x1f3ae), .single (Char.ofNat 0x1f3aa), .single (Char.ofNat 0x1f3ad),
   .single (Char.ofNat 0x1f4b0), .single (Char.ofNat 0x1f4b8), .single (Char.ofNat 0x1f4b5),
   .single (Char.ofNat 0x1f4b4), .single (Char.ofNat 0x1f4b6), .single (Char.ofNat 0x1f4b7),
   .single (Char.ofNat 0x1f3c6), .single (Char.ofNat 0x1f947), .single (Char.ofNat 0x1f948),
   .single (Char.ofNat 0x1f949), .single (Char.ofNat 0x1f3c5), .single (Char.ofNat 0x1f396),
   .single (Char.ofNat 0xfe0f), .single (Char.ofNat 0x1f397), .single (Char.ofNat 0x1f3ab),
   .single (Char.ofNat 0x1f39f), .single (Char.ofNat 0x1f381), .single (Char.ofNat 0x1f380),
   .single (Char.ofNat 0x1f60e), .single (Char.ofNat 0x1f60d), .single (Char.ofNat 0x1f602),
   .single (Char.ofNat 0x1f914), .single (Char.ofNat 0x1f919), .single (Char.ofNat 0x1f918),
   .single (Char.ofNat 0x1f3fb), .single (Char.ofNat 0x1f0cf), .single (Char.ofNat 0x2660),
   .single (Char.ofNat 0x2665), .single (Char.ofNat 0x2666), .single (Char.ofNat 0x2663),
   .single (Char.ofNat 0x1f3b4), .single (Char.ofNat 0x1f004), .single (Char.ofNat 0x1f3a8),
   .single (Char.ofNat 0x1f3ac), .single (Char.ofNat 0x1f522), .single (Char.ofNat 0x1f3b1),
   .single (Char.ofNat 0x1f3b3), .single (Char.ofNat 0x1f3be), .single (Char.ofNat 0x1f3c8),
   .single (Char.ofNat 0x26bd), .single (Char.ofNat 0x1f3c0), .single (Char.ofNat 0x1f3c9),
   .single (Char.ofNat 0x1f3bd), .single (Char.ofNat 0x1f451), .single (Char.ofNat 0x1f48e),
   .single (Char.ofNat 0x1f4b2), .single (Char.ofNat 0x1f4b9), .single (Char.ofNat 0x1f9e7),
   .single (Char.ofNat 0x1f4b1), .single (Char.ofNat 0x1f4ca), .single (Char.ofNat 0x1f4c8),
   .single (Char.ofNat 0x1f4c9), .single (Char.ofNat 0x1f51d), .single (Char.ofNat 0x1f525),
   .single (Char.ofNat 0x2b50), .single (Char.ofNat 0x1f44f), .single (Char.ofNat 0x1f44d),
   .single (Char.ofNat 0x1f44c), .single (Char.ofNat 0x2728), .single (Char.ofNat 0x1f680)]

/-- The gambling-specific emoji class of line 556. -/
def gamblingEmojiItems : List ClsItem :=
  [.single (Char.ofNat 0x1f3b0), .single (Char.ofNat 0x1f3b2), .single (Char.ofNat 0x1f3af),
   .single (Char.ofNat 0x1f3aa), .single (Char.ofNat 0x1f4b0), .single (Char.ofNat 0x1f4b8),
   .single (Char.ofNat 0x1f4b5), .single (Char.ofNat 0x1f3c6), .single (Char.ofNat 0x1f3ab),
   .single (Char.ofNat 0x1f39f), .single (Char.ofNat 0xfe0f), .single (Char.ofNat 0x1f0cf),
   .single (Char.ofNat 0x2660), .single (Char.ofNat 0x2665), .single (Char.ofNat 0x2666),
   .single (Char.ofNat 0x2663), .single (Char.ofNat 0x1f3b4), .single (Char.ofNat 0x1f004),
   .single (Char.ofNat 0x1f3b1), .single (Char.ofNat 0x1f4b2), .single (Char.ofNat 0x1f4b9),
   .single (Char.ofNat 0x1f9e7), .single (Char.ofNat 0x1f4b1), .single (Char.ofNat 0x1f3ad),
   .single (Char.ofNat 0x1f3a8), .single (Char.ofNat 0x1f3ac), .single (Char.ofNat 0x1f51d),
   .single (Char.ofNat 0x1f525), .single (Char.ofNat 0x2b50), .single (Char.ofNat 0x1f680)]

/-- `/\b[A-Z][0-9][A-Z0-9]{2,}\b|\b[A-Z]{2,}[0-9]{2,}\b/g` of line 562. -/
def codeShapeRegex : Regex :=
  .alt
    (seqList [.wb, .cls false [razhi], rd, ratleast 2 (.cls false [razhi, rdig]), .wb])
    (seqList [.wb, ratleast 2 (.cls false [razhi]), ratleast 2 rd, .wb])

/-- The digit-substituted gambling-term shapes of line 565. -/
def gamblingCodeRegex : Regex :=
  let cl := fun (cs : List Char) => Regex.cls false (cs.map ClsItem.single)
  altList
    [ seqList [.wb, cl ['S','s'], cl ['1','l'], cl ['0','O','o'], cl ['T','t'], .wb]
    , seqList [.wb, cl ['B','b'], cl ['0','O','o'], cl ['0','O','o'], cl ['N','n'], cl ['U','u'], cl ['S','s'], .wb]
    , seqList [.wb, cl ['J','j'], cl ['4','A','a'], cl ['C','c'], cl ['K','k'], cl ['P','p'], cl ['0','O','o'], cl ['T','t'], .wb]
    , seqList [.wb, cl ['B','b'], cl ['3','E','e'], cl ['T','t'], .wb]
    , seqList [.wb, cl ['W','w'], cl ['1','l','I'], cl ['N','n'], .wb]
    , seqList [.wb, cl ['C','c'], cl ['4','A','a'], cl ['S','s'], cl ['1','l','I'], cl ['N','n'], cl ['0','O','o'], .wb]
    , seqList [.wb, cl ['P','p'], cl ['0','O','o'], cl ['K','k'], cl ['3','E','e'], cl ['R','r'], .wb] ]

/-- `hasSuspiciousCodeSequences` (lines 551-578). -/
def hasSuspiciousCodeSequences (text : Str) : Bool :=
  let emojiMatches := jsMatchT false (.cls false emojiItems) text
  let gamblingEmojiMatches := jsMatchT false (.cls false gamblingEmojiItems) text
  let codeMatches := jsMatchT false codeShapeRegex text
  let gamblingCodeMatches := jsMatchT false gamblingCodeRegex text
  emojiMatches.length ≥ 2 || gamblingEmojiMatches.length ≥ 1 ||
    codeMatches.length ≥ 1 || gamblingCodeMatches.length ≥ 1

/-- The four monetary-phrase regexes of lines 592-597 (all `/i`). -/
def moneyPhraseRegexes : List Regex :=
  let amount := altList
    [seqList [rplus rd, ropt (.cls false [.single 'k', .single 'K'])],
     rlit "ribu", rlit "juta", rlit "rb"]
  [ seqList [.wb, altList
      [seqList [rlit "min", ropt (rlit "imum"), rstar rs, rlit "dep", ropt (rlit "osit")],
       seqList [rlit "min", rstar rs, rlit "wd"],
       seqList [rlit "wd", rstar rs, rlit "min"]], .wb,
      .rep .dot 0 none true, amount]
  , seqList [.wb, altList [rlit "deposit", rlit "withdrawal", rlit "cashout", rlit "bayar"], .wb,
      .rep .dot 0 none true, amount]
  , seqList [.wb, altList [rlit "bonus", rlit "promo", rlit "free"], .wb,
      .rep .dot 0 none true,
      altList [seqList [rplus rd, .lit '%'],
        seqList [rplus rd, ropt (.cls false [.single 'k', .single 'K'])],
        rlit "ribu", rlit "juta", rlit "rb"]]
  , seqList [.wb, altList [rlit "win", rlit "menang", rlit "dapat", rlit "untung"], .wb,
      .rep .dot 0 none true,
      altList [seqList [rplus rd, .cls false [.single 'x', .single 'X']],
        seqList [rplus rd, ropt (.cls false [.single 'k', .single 'K'])],
        rlit "ribu", rlit "juta", rlit "rb"]] ]

/-- The two urgency regexes of lines 607-610. -/
def timePhraseRegexes : List Regex :=
  [ seqList [.wb, altList [rlit "today", seqList [rlit "hari", rstar rs, rlit "ini"],
      rlit "sekarang", rlit "now", rlit "langsung"], .wb,
      .rep .dot 0 none true, altList [rlit "bonus", rlit "promo", rlit "free"]]
  , seqList [.wb, altList [rlit "limited", rlit "terbatas", rlit "hanya", rlit "only"], .wb,
      .rep .dot 0 none true, altList [rlit "time", rlit "waktu", rlit "hari", rlit "jam"]] ]

/-- The three customer-service regexes of lines 620-624. -/
def csIndicatorRegexes : List Regex :=
  [ seqList [.wb, altList [rlit "cs", seqList [rlit "customer", rstar rs, rlit "service"],
      seqList [rlit "layanan", rstar rs, rlit "pelanggan"], rlit "admin",
      seqList [rlit "help", rstar rs, rlit "desk"]], .wb]
  , seqList [.wb, altList [rlit "wa", rlit "whatsapp", rlit "telegram", rlit "line", rlit "chat"], .wb,
      .rep .dot 0 none true,
      altList [ratleast 4 rd, rlit "online",
        seqList [rlit "24", rstar rs, altList [rlit "jam", rlit "hours"]]]]
  , seqList [.wb, altList [rlit "kontak", rlit "contact", rlit "hubungi"], .wb,
      .rep .dot 0 none true,
      altList [rlit "wa", rlit "whatsapp", rlit "telegram", rlit "line", rlit "chat"]] ]

/-- The two payment regexes of lines 634-636. -/
def paymentIndicatorRegexes : List Regex :=
  [ seqList [.wb, altList [rlit "bank", rlit "bca", rlit "bni", rlit "bri", rlit "mandiri",
      rlit "dana", rlit "ovo", rlit "gopay", rlit "linkaja", rlit "pulsa",
      rlit "e-wallet", rlit "wallet", rlit "dompet", rlit "payment", rlit "pembayaran"], .wb]
  , seqList [.wb, altList [seqList [rlit "all", rstar rs, rlit "bank"],
      seqList [rlit "semua", rstar rs, rlit "bank"],
      seqList [rlit "bank", rstar rs, rlit "lokal"],
      seqList [rlit "local", rstar rs, rlit "bank"]], .wb] ]

/-- `detectContextualGamblingIndicators` (lines 585-647): every listed
regex that tests true adds its fixed increment and pushes its tag. -/
def detectContextualGamblingIndicators (text : Str) : ℚ × List Str :=
  let hits := fun (rs0 : List Regex) => (rs0.filter (fun p => jsTestT true p text)).length
  let m := hits moneyPhraseRegexes
  let t := hits timePhraseRegexes
  let c := hits csIndicatorRegexes
  let p := hits paymentIndicatorRegexes
  ((m : ℚ) * 0.05 + (t : ℚ) * 0.03 + (c : ℚ) * 0.03 + (p : ℚ) * 0.01,
   List.replicate m (str "monetary_phrase") ++ List.replicate t (str "urgency_phrase") ++
   List.replicate c (str "cs_indicator") ++ List.replicate p (str "payment_indicator"))

/-- The two substitution-shape regexes of lines 661-664. -/
def substitutionShapeRegexes : List Regex :=
  let symCls := Regex.cls false [rdig, .single '!', .single '@', .single '#',
    .single '$', .single '%', .single '^', .single '&', .single '*']
  let alnumSymCls := Regex.cls false [razlo, razhi, rdig, .single '!', .single '@',
    .single '#', .single '$', .single '%', .single '^', .single '&', .single '*']
  [ seqList [.wb, rstar letterCls, symCls, rstar alnumSymCls, rplus letterCls,
      rstar alnumSymCls, .wb]
  , seqList [.wb, rplus letterCls, ratleast 3 rd, .wb] ]

/-- `analyzeEvasionTechniques` (lines 654-704). -/
def analyzeEvasionTechniques (text : Str) : ℚ × List Str :=
  let subHits := substitutionShapeRegexes.filter (fun p => (jsMatchT false p text) ≠ [])
  let s1 : ℚ := (subHits.length : ℚ) * 0.3
  let t1 := List.replicate subHits.length (str "character_substitution")
  let (s2, t2) :=
    if hasSeparatedWords text then (s1 + 0.4, t1 ++ [str "word_separation"]) else (s1, t1)
  let (s3, t3) :=
    if jsTestT false (ratleast 2 rs) text ||
       jsTestT false (seqList [letterCls, rs, letterCls, rs, letterCls]) text then
      (s2 + 0.2, t2 ++ [str "unusual_spacing"])
    else (s2, t2)
  let (s4, t4) :=
    if jsTestT false (.alt (.seq (.cls false [razlo]) (.cls false [razhi]))
        (seqList [.cls false [razhi], .cls false [razlo], .cls false [razhi]])) text then
      (s3 + 0.2, t3 ++ [str "mixed_case"])
    else (s3, t3)
  let words := (jsWords text).filter (fun w => w.length ≥ 4)
  let (s5, t5) :=
    if words.any (fun w => strIncludes text w.reverse && w ≠ w.reverse) then
      (s4 + 0.5, t4 ++ [str "reversed_text"])
    else (s4, t4)
  (s5, t5)

/-- The class `[\s.:]`. -/
def wsDotColonCls : Regex := .cls false (sItems ++ [.single '.', .single ':'])

/-- A phone-number shape `\+?\d{8,15}|\+?\d{2,4}[-\s]?\d{2,4}[-\s]?\d{2,5}`. -/
def phoneShape : Regex :=
  let dash := ropt (.cls false (sItems ++ [.single '-']))
  .alt (.seq (ropt (.lit '+')) (.rep rd 8 (some 15) false))
    (seqList [ropt (.lit '+'), rbetween 2 4 rd, dash, rbetween 2 4 rd, dash, rbetween 2 5 rd])

/-- The six contact regexes of lines 719-743, with their type tags. -/
def contactPatterns : List (Str × Regex) :=
  [ (str "whatsapp", seqList [.wb,
      altList [rlit "wa", rlit "whatsapp", rlit "w4", rlit "wea"],
      rstar wsDotColonCls, phoneShape, .wb])
  , (str "telegram", seqList [.wb,
      altList [rlit "telegram", rlit "tele", rlit "t.me", rlit "tg"],
      rstar wsDotColonCls,
      .alt (.seq (.lit '@') (rplus rw)) (.seq (ropt (.lit '+')) (.rep rd 8 (some 15) false))])
  , (str "phone", seqList [.wb,
      altList [rlit "tel", rlit "telp", rlit "hp", rlit "phone", rlit "hubungi", rlit "call"],
      rstar wsDotColonCls, phoneShape, .wb])
  , (str "instagram", seqList [.wb,
      altList [rlit "ig", rlit "instagram", rlit "insta"],
      rstar wsDotColonCls, .alt (.seq (.lit '@') (rplus rw)) (rplus rw)])
  , (str "line", seqList [.wb,
      altList [rlit "line", rlit "ln"],
      rstar wsDotColonCls, .alt (.seq (.lit '@') (rplus rw)) (rplus rw)])
  , (str "website", seqList [.wb,
      ropt (seqList [rlit "http", ropt (.lit 's'), rlit "://"]),
      ropt (rlit "www."),
      .grp 1 (rplus (.cls false [razlo, razhi, rdig, .single '-'])),
      rplus (.seq (.lit '.') (rplus (.cls false [razlo, razhi, rdig, .single '-']))),
      ropt (.seq (.lit '/') (rstar (.cls true sItems)))]) ]

/-- `extractContactInfos` (lines 711-759). -/
def extractContactInfos (text : Str) : ContactInfo :=
  contactPatterns.foldl (fun acc tp =>
    let ms := jsMatchT true tp.2 text
    if ms ≠ [] then
      { found := true, types := acc.types ++ [tp.1], values := acc.values ++ ms }
    else acc) {}

/-- The language pattern table of lines 292-320 (all `/i`, non-global). -/
def languagePatternTable : List (Str × List Regex) :=
  [ (str "en",
      [ seqList [.wb, altList [seqList [rlit "bet", ropt (rlit "ting")], rlit "wager",
          rlit "casino", rlit "poker", rlit "slot", rlit "roulette", rlit "jackpot",
          rlit "gambling"], .wb]
      , seqList [.wb, altList [seqList [rlit "online", rplus rs, rlit "gaming"],
          seqList [rlit "sports", rplus rs, rlit "betting"], rlit "odds",
          rlit "bookmaker", rlit "bookie"], .wb]
      , seqList [.wb, altList [rlit "deposit", rlit "withdraw", rlit "bonus",
          seqList [rlit "free", rplus rs, rlit "spin"],
          seqList [rlit "vip", rplus rs, rlit "member"],
          seqList [rlit "promo", rplus rs, rlit "code"]], .wb] ])
  , (str "id",
      [ seqList [.wb, altList [rlit "judi", rlit "togel", rlit "gacor", rlit "maxwin",
          rlit "slot", rlit "toto", rlit "rolet", rlit "kasino", rlit "bandar"], .wb]
      , seqList [.wb, altList [rlit "taruhan", rlit "pasang", rlit "daftar", rlit "situs",
          rlit "bo", seqList [rlit "link", rplus rs, rlit "alternatif"], rlit "akun",
          rlit "member"], .wb]
      , seqList [.wb, altList [rlit "menang", rlit "jackpot", rlit "deposit",
          rlit "withdraw", rlit "bonus", rlit "spin", rlit "prediksi", rlit "bocoran"], .wb] ])
  , (str "zh",
      [ seqList [.wb, altList [rlit "博彩", rlit "赌场", rlit "赌博", rlit "投注",
          rlit "老虎机", rlit "轮盘", rlit "扑克", rlit "百家乐"], .wb]
      , seqList [.wb, altList [rlit "押注", rlit "下注", rlit "返水", rlit "彩金",
          rlit "奖金", rlit "优惠", rlit "免费旋转"], .wb] ])
  , (str "vi",
      [ seqList [.wb, altList [seqList [rlit "cá", rplus rs, rlit "cược"],
          seqList [rlit "đánh", rplus rs, rlit "bạc"],
          seqList [rlit "sòng", rplus rs, rlit "bạc"], rlit "khe",
          seqList [rlit "xổ", rplus rs, rlit "số"], rlit "cược"], .wb]
      , seqList [.wb, altList [seqList [rlit "tiền", rplus rs, rlit "thưởng"],
          seqList [rlit "quay", rplus rs, rlit "miễn", rplus rs, rlit "phí"],
          seqList [rlit "đặt", rplus rs, rlit "cược"], rlit "trúng"], .wb] ])
  , (str "th",
      [ seqList [.wb, altList [rlit "การพนัน", rlit "คาสิโน", rlit "สล็อต", rlit "พนัน",
          rlit "เดิมพัน", rlit "แทง"], .wb]
      , seqList [.wb, altList [rlit "โบนัส", rlit "ฟรีสปิน", rlit "ถอนเงิน",
          rlit "ฝากเงิน", rlit "สมัคร"], .wb] ]) ]

/-- `detectLanguageSpecificPatterns` (lines 291-346): for the selected
language (or all of them), each non-global `/i` regex that matches adds
`0.3 * matches.length` — the match array of a non-global regex with no
capture groups has length 1 — and pushes the matched text. -/
def detectLanguageSpecificPatterns (text : Str) (language : Str) : ℚ × List Str :=
  let langs := if language = str "all" then languagePatternTable.map (fun p => p.1)
    else [language]
  langs.foldl (fun acc lang =>
    match languagePatternTable.find? (fun p => p.1 = lang) with
    | none => acc
    | some (_, pats) =>
        pats.foldl (fun acc2 p =>
          match jsFirstMatch true p text with
          | some m => (acc2.1 + 0.3, acc2.2 ++ [m])
          | none => acc2) acc) (0, [])

/-! ## Keyword extraction (detector.js lines 772-845) -/

def isDigit (c : Char) : Bool := '0' ≤ c && c ≤ '9'

/-- Value of a digit string. -/
def digitsVal (ds : Str) : ℕ := ds.foldl (fun a c => a * 10 + (c.toNat - 48)) 0

/-- JS `parseFloat`: longest numeric prefix after optional whitespace and
sign, with optional fraction and exponent; `none` models `NaN`. -/
def jsParseFloat (s : Str) : Option ℚ :=
  let t := s.dropWhile isJsSpace
  let signAndRest : ℚ × Str :=
    match t with
    | '-' :: r => (-1, r)
    | '+' :: r => (1, r)
    | _ => (1, t)
  let sign := signAndRest.1
  let t1 := signAndRest.2
  let intPart := t1.takeWhile isDigit
  let t2 := t1.dropWhile isDigit
  let fracAndRest : Str × Str :=
    match t2 with
    | '.' :: r => (r.takeWhile isDigit, r.dropWhile isDigit)
    | _ => ([], t2)
  let fracPart := fracAndRest.1
  let t3 := fracAndRest.2
  if intPart = [] ∧ fracPart = [] then none
  else
    let mantissa : ℚ :=
      (digitsVal intPart : ℚ) + (digitsVal fracPart : ℚ) / ((10 : ℚ) ^ fracPart.length)
    let expVal : Option (Bool × Str) :=
      match t3 with
      | 'e' :: r | 'E' :: r =>
          match r with
          | '-' :: r2 => if r2.takeWhile isDigit = [] then none else some (true, r2.takeWhile isDigit)
          | '+' :: r2 => if r2.takeWhile isDigit = [] then none else some (false, r2.takeWhile isDigit)
          | _ => if r.takeWhile isDigit = [] then none else some (false, r.takeWhile isDigit)
      | _ => none
    some (sign * match expVal with
      | some (true, ds) => mantissa / ((10 : ℚ) ^ digitsVal ds)
      | some (false, ds) => mantissa * ((10 : ℚ) ^ digitsVal ds)
      | none => mantissa)

/-- Values a keyword entry may carry (`undefined` is modelled together
with `null`: the source treats them identically). -/
inductive KeywordVal where
  | kbool (b : Bool)
  | knum (q : ℚ)
  | kstr (s : Str)
  | knull
deriving Repr, DecidableEq

/-- An element of a keyword array. -/
inductive KeywordItem where
  | istr (s : Str)
  | iobj (entries : List (Str × KeywordVal))
  | iother
deriving Repr, DecidableEq

/-- The accepted shapes of `options.keywords`. -/
inductive KeywordsInput where
  | kstring (s : Str)
  | karr (items : List KeywordItem)
  | kobj (entries : List (Str × KeywordVal))
  | knone
deriving Repr, DecidableEq

/-- `processEntry`'s score computation (lines 776-811). -/
def keywordScore : KeywordVal → ℚ
  | .kbool b => if b then 1 else 0
  | .knum v => if v > 5 then 1 else if v = 4 then 0.4 else if 0 ≤ v ∧ v ≤ 1 then v else 1
  | .kstr s =>
      match jsParseFloat s with
      | some v => if v > 5 then 1 else if v = 4 then 0.4 else if 0 ≤ v ∧ v ≤ 1 then v else 1
      | none => 1
  | .knull => 0

/-- `processEntry` over an entry list: empty keys are skipped. -/
def processEntries (entries : List (Str × KeywordVal)) : List (Str × ℚ) :=
  entries.filterMap (fun e => if e.1 = [] then none else some (e.1, keywordScore e.2))

/-- `extractKeywordArrays` (lines 772-845): the parallel term and score
arrays. -/
def extractKeywordArrays : KeywordsInput → List Str × List ℚ
  | .knone => ([], [])
  | .kstring s => if jsTrim s ≠ [] then ([s], [1]) else ([], [])
  | .karr items =>
      let pairs := items.flatMap (fun it =>
        match it with
        | .istr s => if jsTrim s ≠ [] then [(s, (1 : ℚ))] else []
        | .iobj entries => processEntries entries
        | .iother => [])
      (pairs.map (fun p => p.1), pairs.map (fun p => p.2))
  | .kobj entries =>
      ((processEntries entries).map (fun p => p.1),
       (processEntries entries).map (fun p => p.2))

/-! ## detect: options, defaults and pipeline (detector.js lines 902-1466) -/

/-- The default keyword list (lines 907-910). -/
def defaultKeywords : List Str :=
  [str "slot", str "casino", str "jack", str "zeus", str "scatter", str "toto",
   str "judol", str "jodol", str "poker", str "roulette", str "betting",
   str "gamble", str "joker"]

/-- The options record after destructuring with defaults (lines 904-921). -/
structure DetectOptions where
  supportKeywords : List Str := []
  domains : List Str := []
  keywords : KeywordsInput := .karr (defaultKeywords.map .istr)
  allowlist : List Str := []
  sensitivityLevel : ℚ := 3
  includeAnalysis : Bool := false
  detectRepetition : Bool := true
  detectUrlPatterns : Bool := true
  detectEvasionTechniques : Bool := true
  detectContextualIndicators : Bool := true
  extractContactInfo : Bool := true
  language : Str := str "all"

/-- The default support keywords (lines 961-980), duplicates and order
preserved. -/
def defaultSupportKeywords : List Str :=
  [str "wdp", str "wd", str "win", str "happy", str "joyful", str "rich",
   str "trustworthy", str "lucky", str "trust", str "definitely get", str "jp",
   str "jackpot", str "proud", str "harvest", str "smart", str "gambli",
   str "great", str "money back", str "trusted", str "beautiful", str "harvest",
   str "fishing", str "bet", str "put", str "bonus", str "dp", str "pay",
   str "enough", str "game", str "play", str "happy", str "deposit",
   str "withdraw", str "min", str "max", str "winning", str "fortune",
   str "luck", str "lucky", str "prize", str "reward", str "vip", str "member",
   str "free", str "register", str "sign", str "join", str "profit", str "earn",
   str "money", str "cash", str "credit", str "debit", str "join", str "login",
   str "official", str "original", str "genuine", str "link", str "alternative",
   str "customer", str "service", str "provider", str "welcome",
   str "promotion", str "online", str "platform", str "app", str "application",
   str "alternati", str "scatter", str "wager", str "baccarat", str "blackjack",
   str "dice", str "spin", str "multiplier", str "odds",
   str "menang", str "senang", str "gacor", str "gembira", str "kaya",
   str "pasti dapat", str "bangga", str "panen", str "beruntung", str "untung",
   str "mancing", str "uang kembali", str "dipercaya", str "amanah",
   str "terpercaya", str "cantik", str "pancing", str "judi", str "taruhan",
   str "pasang", str "togel", str "hadiah", str "bonus", str "register",
   str "masuk", str "dana", str "jamin", str "aman", str "situs", str "resmi",
   str "asli", str "maxwin", str "gampang", str "bocoran", str "prediksi",
   str "jitu", str "akurat", str "terpercaya", str "terbaik",
   str "rekomendasi", str "main", str "permainan", str "daftar", str "minimal",
   str "maksimal", str "pasaran", str "nomor", str "petaruh", str "peluang",
   str "kesempatan", str "keberuntungan", str "ratusan", str "ribuan",
   str "jutaan", str "hadiah", str "alternatif"]

/-- `[...new Set(list)]`: deduplication keeping the first occurrence. -/
def jsSetDedupGo (seen : List Str) : List Str → List Str
  | [] => []
  | x :: rest =>
      if seen.contains x then jsSetDedupGo seen rest
      else x :: jsSetDedupGo (x :: seen) rest

def jsSetDedup (l : List Str) : List Str := jsSetDedupGo [] l

/-- Ordered-set insertion (`Set.prototype.add`). -/
def setAdd (s : List Str) (x : Str) : List Str :=
  if s.contains x then s else s ++ [x]

/-- `converted.replace(/\s+/g, '')`: all whitespace removed. -/
def stripWs (s : Str) : Str := s.filter (fun c => !isJsSpace c)

/-- Comparison of a possibly-`undefined` number: `undefined > y` and
`undefined ≥ y` are false in JS. -/
def optGT (x : Option ℚ) (y : ℚ) : Bool :=
  match x with | some q => q > y | none => false

def optGE (x : Option ℚ) (y : ℚ) : Bool :=
  match x with | some q => q ≥ y | none => false

/-- The rawText normalization of lines 955-958: newlines to spaces,
periods padded with spaces, whitespace collapsed, trimmed. -/
def rawTextOf (text : Str) : Str :=
  let t1 := text.map (fun c => if c = Char.ofNat 0xa then ' ' else c)
  let t2 := t1.flatMap (fun c => if c = '.' then [' ', '.', ' '] else [c])
  jsTrim (jsReplaceT false (rplus rs) (fun _ _ => [' ']) t2)

/-- `/\b[a-zA-Z]{3,}\d{2,5}\b/gi` (line 1243). -/
def siteIdRegex : Regex :=
  seqList [.wb, ratleast 3 letterCls, rbetween 2 5 rd, .wb]

/-- `/\b[a-zA-Z]{2,3}\d{1,5}\b/gi` (line 1233). -/
def shortIdRegex : Regex :=
  seqList [.wb, rbetween 2 3 letterCls, rbetween 1 5 rd, .wb]

/-- `/\b[a-zA-Z]{3,}\d{2,}\b/gi` (line 1236). -/
def longIdRegex : Regex :=
  seqList [.wb, ratleast 3 letterCls, ratleast 2 rd, .wb]

/-- The blocklist regex of line 1108:
an optional protocol and `www.`, the escaped domain, word-bounded, `/i`. -/
def blockedDomainRegex (blocked : Str) : Regex :=
  seqList [.wb, ropt (seqList [rlit "http", ropt (.lit 's'), rlit "://"]),
    ropt (rlit "www."), rlitStr blocked, .wb]

inductive ApproachName where
  | standard
  | custom
  | loose
  | tiny
deriving Repr, DecidableEq

/-- One entry of the `patternApproaches` array (lines 1191-1216);
`amin` transcribes the `min` field. -/
structure Approach where
  pattern : Option Regex
  value : ℚ
  amin : ℚ
  name : ApproachName

/-- The `patternApproaches` array for a pass weight. -/
def approachesFor (weight : ℚ) (customPat loosePat tinyPat : Option Regex) :
    List Approach :=
  [ ⟨some standardPatternRegex, 0.5 * weight, 0.014 * weight, .standard⟩
  , ⟨customPat, 0.4 * weight, 0.013 * weight, .custom⟩
  , ⟨loosePat, 0.3 * weight, 0.011 * weight, .loose⟩
  , ⟨tinyPat, 0.25 * weight, 0.005 * weight, .tiny⟩ ]

/-- Context fixed during the multi-pass search. -/
structure LoopCtx where
  keyword : List Str
  keywordList : List Str
  allowlist : List Str
  domainsLower : List Str
  sfNorm : Option ℚ
  textOuter : Str
  tinyPat : Option Regex

/-- Mutable state of the approach loop; `foundMatch = true` models the
`break` (later approaches are skipped). -/
structure LoopSt where
  checkpoint : ℚ
  allMatches : List Str
  matchedTerms : List Str
  fuzzyHistory : List Str
  foundMatch : Bool
  looseAttempted : Nat

/-- `fuzzyHistory = fuzzyHistory.slice(-2)` when longer than 2. -/
def trimHist (st : LoopSt) : LoopSt :=
  if st.fuzzyHistory.length > 2 then
    { st with fuzzyHistory := st.fuzzyHistory.drop (st.fuzzyHistory.length - 2) }
  else st

/-- The body of the approach loop (lines 1222-1342) for one approach. -/
def approachStep (ctx : LoopCtx) (processedText textFixed converted : Str)
    (st : LoopSt) (ap : Approach) : LoopSt :=
  if st.foundMatch then st
  else
    match ap.pattern with
    | none => st
    | some pat =>
      let matches0 := jsMatchT true pat (stripWs converted)
      -- lines 1230-1248: aggressive retries at high sensitivity, or the
      -- site-identifier probe on the original text
      let step1 : List Str × ℚ :=
        if matches0 = [] ∧ (ap.name = .loose ∨ st.looseAttempted > 0) then
          let m1 := if optGT ctx.sfNorm 2 then
              jsMatchT true shortIdRegex (combineShortWords textFixed) else []
          if m1 = [] ∧ optGT ctx.sfNorm 2 then
            let m2 := jsMatchT true longIdRegex textFixed
            if m2 ≠ [] then (m2, st.checkpoint + ap.value * 1.2) else (m2, st.checkpoint)
          else (m1, st.checkpoint)
        else if ap.name ≠ .tiny then
          let siteIds := jsMatchT true siteIdRegex (jsTrim ctx.textOuter)
          if siteIds ≠ [] ∧ optGE ctx.sfNorm 4 then (matches0, st.checkpoint + 0.1)
          else (matches0, st.checkpoint)
        else (matches0, st.checkpoint)
      let matches1 := step1.1
      -- lines 1251-1259: +0.1 per fuzzy-history entry matching this pattern
      let cp2 := st.fuzzyHistory.foldl (fun c el =>
        if jsMatchT true pat (stripWs el) ≠ [] then c + 0.1 else c) step1.2
      -- lines 1261-1271: loose runs once; tiny rebinds its matches to the
      -- processed text and adds 0.03 on success
      if ap.name = .loose ∧ st.looseAttempted > 0 then
        { st with checkpoint := cp2 }
      else
        let st1 := if ap.name = .loose then
            { st with looseAttempted := st.looseAttempted + 1 } else st
        let tinyStep : List Str × ℚ :=
          if ap.name = .tiny then
            let mt := jsMatchT true pat processedText
            (mt, if mt ≠ [] then cp2 + 0.03 else cp2)
          else (matches1, cp2)
        let matchesF := tinyStep.1
        let cp3 := tinyStep.2
        -- lines 1274-1289: allowlist-filtered matches, checkpoint-gated
        if matchesF ≠ [] then
          let filtered := filterAllowed ctx.allowlist matchesF
          if filtered ≠ [] then
            let st2 := { st1 with
              checkpoint := cp3
              allMatches := st1.allMatches ++ filtered
              matchedTerms := filtered.foldl (fun s m => setAdd s (jsLower m)) st1.matchedTerms }
            if cp3 > 0.5 then
              { st2 with checkpoint := cp3 + ap.value, foundMatch := true }
            else st2
          else { st1 with checkpoint := cp3 }
        else
          -- lines 1290-1341: fuzzy-assisted retry, else the small penalty
          match fuzzySearchCore ctx.keywordList textFixed with
          | best :: _ =>
              if best.score > 0.7 then
                let textSession := replaceFirstSub textFixed best.matched_word best.matched_with
                let fuzzyMatches := jsMatchT true pat (stripWs textSession)
                let ff := filterAllowed ctx.allowlist fuzzyMatches
                if fuzzyMatches ≠ [] ∧ ff ≠ [] then
                  let st2 := { st1 with
                    checkpoint := cp3
                    allMatches := st1.allMatches ++ ff
                    matchedTerms := ff.foldl (fun s m => setAdd s (jsLower m)) st1.matchedTerms }
                  if cp3 > 0.5 then
                    { st2 with checkpoint := cp3 + 0.08, foundMatch := true }
                  else
                    trimHist { st2 with fuzzyHistory := st2.fuzzyHistory ++ [textSession] }
                else
                  trimHist { st1 with
                    checkpoint := cp3
                    fuzzyHistory := st1.fuzzyHistory ++ [textSession] }
              else trimHist { st1 with checkpoint := cp3 }
          | [] =>
              let st2 :=
                match fuzzySearchCore ctx.keyword converted with
                | best2 :: _ =>
                    if best2.score > 0.6 then
                      { st1 with fuzzyHistory := st1.fuzzyHistory ++
                        [replaceFirstSub textFixed best2.matched_word best2.matched_with] }
                    else st1
                | [] => st1
              trimHist { st2 with checkpoint := cp3 - (ap.amin - 0.002) }

/-- Mutable state across ignore iterations and passes. -/
structure PassSt where
  checkpoint : ℚ
  allMatches : List Str
  matchedTerms : List Str
  fuzzyHistory : List Str
  detected : Bool
  analysis : Option Analysis

/-- One ignore-depth iteration (lines 1185-1381): leet conversion, the
four approaches, and on a found match the supporting-keyword bonus. -/
def ignoreStep (ctx : LoopCtx) (processedText : Str) (weight : ℚ)
    (customPat loosePat tinyPat : Option Regex) (st : PassSt) (ignore : Nat) :
    PassSt :=
  if st.detected then st
  else
    let textFixed := convertCommentFixed processedText ignore
    let converted := combineShortWords (cleanWeirdPatterns textFixed)
    let lst0 : LoopSt :=
      ⟨st.checkpoint, st.allMatches, st.matchedTerms, st.fuzzyHistory, false, 0⟩
    let lst := (approachesFor weight customPat loosePat tinyPat).foldl
      (approachStep ctx processedText textFixed converted) lst0
    if lst.foundMatch then
      -- lines 1344-1380: supporting keywords in the converted text
      let convertedLower := jsLower converted
      let keywordMatches := ctx.keywordList.filter (fun kw =>
        !ctx.domainsLower.contains (jsLower kw) && strIncludes convertedLower (jsLower kw))
      let cnt := keywordMatches.length
      let afterBonus : ℚ × Option Analysis :=
        if cnt > 0 then
          let keywordBonus := min 1.5 (0.03 * ((cnt : ℚ) / 2) + 0.7)
          let cpn := if lst.checkpoint > 0.45 then lst.checkpoint + (keywordBonus - 0.2)
            else lst.checkpoint - 0.01
          (cpn, st.analysis.map (fun a =>
            { a with supportingKeywords := keywordMatches, keywordMatchCount := cnt }))
        else (lst.checkpoint, st.analysis)
      { checkpoint := afterBonus.1, allMatches := lst.allMatches,
        matchedTerms := lst.matchedTerms, fuzzyHistory := lst.fuzzyHistory,
        detected := true, analysis := afterBonus.2 }
    else
      { st with
        checkpoint := lst.checkpoint
        allMatches := lst.allMatches
        matchedTerms := lst.matchedTerms
        fuzzyHistory := lst.fuzzyHistory }

/-- One detection pass (lines 1180-1384): the converter applied to the
merged text, then ignore depths 0..6; a pass with a detection stops the
outer loop. -/
def passStep (ctx : LoopCtx) (merged : Str)
    (customPat loosePat tinyPat : Option Regex) (st : PassSt)
    (pass : (Str → Str) × ℚ) : PassSt :=
  if st.detected then st
  else
    let processedText := pass.1 merged
    (List.range 7).foldl
      (ignoreStep ctx processedText pass.2 customPat loosePat tinyPat) st

/-- The three detection passes (lines 1133-1149). -/
def detectionPasses : List ((Str → Str) × ℚ) :=
  [(fun t => t, 1), (cleanWeirdPatterns, 0.9),
   (fun t => combineShortWords (cleanWeirdPatterns t), 0.8)]

/-- The structured `analysis` of the result (lines 1421-1435). -/
structure AnalysisOut where
  flags : Analysis
  matchedTerms : List Str
  allMatches : List Str
  wordCount : Nat
  charCount : Nat
  avgWordLength : ℚ
deriving Repr, DecidableEq

/-- The result record of `detect`. -/
structure DetectResult where
  isGambling : Bool
  confidence : Confidence
  checkpoint : ℚ
  details : Str
  comment : JsVal
  analysis : Option AnalysisOut

/-- The `details` string of the final evaluation, with the same branch
structure as `finalVerdict` (lines 1412-1458). -/
def finalDetails (detected hasGarbage : Bool) (checkpoint : ℚ)
    (th : ConfidenceThresholds) : Str :=
  if detected || decide (checkpoint ≥ th.low) then
    if checkpoint ≥ th.high then str "✅ Gambling content detected with high confidence"
    else if checkpoint ≥ th.medium then str "✅ Gambling content likely detected"
    else if checkpoint ≥ th.low then str "⚠️ Possible gambling content (manual review recommended)"
    else str "No gambling content detected"
  else if hasGarbage then str "⚠️ Suspicious content detected (excessive symbol usage)"
  else str "No gambling content detected"

/-- The early result of the short-text guard (lines 944-952). -/
def earlyResult (text : JsVal) : DetectResult :=
  { isGambling := false, confidence := .cnone, checkpoint := 0,
    details := str "Text too short for analysis", comment := text, analysis := none }

/-- Running accumulation state: the checkpoint and the optional analysis
object. -/
structure StageSt where
  cp : ℚ
  an : Option Analysis
deriving Repr, DecidableEq

/-- The signal-detector steps 1-7 of `detect` (lines 1000-1066), on the
normalized raw text; returns the accumulated state and the garbage flag. -/
def signalsStage (options : DetectOptions) (rawText : Str) : StageSt × Bool :=
  let analysis0 : Option Analysis := if options.includeAnalysis then some {} else none
  -- 1. garbage (line 1003: explicit threshold 0.45)
  let hasGarbage := isMostlyAsciiGarbage rawText 0.45
  let s1 : StageSt :=
    if hasGarbage then
      ⟨0.4, analysis0.map (fun a => { a with garbageDetected := true })⟩
    else ⟨0, analysis0⟩
  -- 2. repetition
  let s2 :=
    if options.detectRepetition && hasAbnormalRepetition rawText then
      ⟨s1.cp + 0.5, s1.an.map (fun a => { a with repetitionDetected := true })⟩
    else s1
  -- 3. URLs
  let s3 :=
    if options.detectUrlPatterns && hasSuspiciousUrlPatterns rawText then
      ⟨s2.cp + 0.7, s2.an.map (fun a => { a with suspiciousUrlDetected := true })⟩
    else s2
  -- 4. code sequences
  let s4 :=
    if hasSuspiciousCodeSequences rawText then
      ⟨s3.cp + 0.3, s3.an.map (fun a => { a with suspiciousCodeSequences := true })⟩
    else s3
  -- 5. evasion
  let ev := if options.detectEvasionTechniques then analyzeEvasionTechniques rawText
    else (0, [])
  let s5 :=
    if ev.1 > 0 then
      ⟨s4.cp + ev.1,
       s4.an.map (fun a => { a with evasionTechniques := ev.2, evasionScore := ev.1 })⟩
    else s4
  -- 6. contextual indicators
  let ctxi := if options.detectContextualIndicators then
      detectContextualGamblingIndicators rawText else (0, [])
  let s6 :=
    if ctxi.1 > 0 then
      ⟨s5.cp + ctxi.1,
       s5.an.map (fun a => { a with contextualIndicators := ctxi.2, contextualScore := ctxi.1 })⟩
    else s5
  -- 7. contact info
  let contact := if options.extractContactInfo then some (extractContactInfos rawText)
    else none
  let contactFound := match contact with | some c => c.found | none => false
  let s7 :=
    if contactFound then
      ⟨s6.cp + 0.4, s6.an.map (fun a => { a with contactInfo := contact })⟩
    else s6
  (s7, hasGarbage)

/-- The normalizer chain, steps 8-10 of `detect` (lines 1068-1090);
returns the state together with the reconstructed and merged texts. -/
def normalizeStage (st : StageSt) (rawText : Str) : StageSt × Str × Str :=
  let cleaned := cleanText rawText
  let s8 : StageSt :=
    if cleaned ≠ rawText then
      ⟨st.cp + 0.3, st.an.map (fun a => { a with containsNonStandardChars := true })⟩
    else st
  let reconstructed := reconstructSeparatedWords cleaned
  let s9 :=
    if reconstructed ≠ cleaned then
      ⟨s8.cp + 0.3, s8.an.map (fun a => { a with wordSeparationDetected := true })⟩
    else s8
  let merged := mergeTextWithTrailingNumbers reconstructed
  let s10 :=
    if merged ≠ reconstructed then
      ⟨s9.cp - 0.3, s9.an.map (fun a => { a with separatedNumbersDetected := true })⟩
    else s9
  (s10, reconstructed, merged)

/-- Step 11 and the blocklist check (lines 1092-1115). -/
def langDomainStage (options : DetectOptions) (domainsLower : List Str)
    (st : StageSt) (merged : Str) : StageSt :=
  let lang := detectLanguageSpecificPatterns merged options.language
  let s11 : StageSt :=
    if lang.1 > 0 then
      ⟨st.cp + lang.1,
       st.an.map (fun a => { a with languageSpecificMatches := lang.2, languageScore := lang.1 })⟩
    else st
  let lowerText := jsLower merged
  let domainMatched := domainsLower.any (fun blocked =>
    strIncludes lowerText blocked || jsTestT true (blockedDomainRegex blocked) lowerText)
  if domainMatched then
    ⟨s11.cp + 0.57, s11.an.map (fun a => { a with blockedDomainDetected := true })⟩
  else s11

/-- The fuzzy replacement applied to the original text (lines 1152-1159). -/
def textMutOf (keyword : List Str) (text : Str) : Str :=
  let fuzzyText1 := fuzzySearchCore keyword text
  if fuzzyText1 ≠ [] then
    match fuzzyText1.filter (fun f => f.score > 0.6) with
    | h :: _ => replaceFirstSub text h.matched_word h.matched_with
    | [] => text
  else text

/-- The support-keyword list of lines 983-998. -/
def keywordListOf (options : DetectOptions) (domainsLower : List Str) : List Str :=
  let keywordList0 := if options.supportKeywords.length > 0 then options.supportKeywords
    else defaultSupportKeywords
  let keywordList1 :=
    if options.supportKeywords.length = 0 ∨
        (!options.supportKeywords.contains (str "wdp") &&
         !options.supportKeywords.contains (str "win")) then
      jsSetDedup (keywordList0 ++ defaultSupportKeywords)
    else keywordList0
  keywordList1.filter (fun w =>
    !domainsLower.contains (jsLower w) && (jsTrim w).length > 0)

/-- The content-metrics step 15 (lines 1386-1406). -/
def contentStage (st : StageSt) (rawText : Str) : StageSt × Nat × Nat × ℚ :=
  let wordCount := (jsWords rawText).length
  let charCount := rawText.length
  let avgWordLength : ℚ := if wordCount > 0 then (charCount : ℚ) / (wordCount : ℚ) else 0
  let lenHit := (5 ≤ wordCount ∧ wordCount ≤ 50) ∨ (30 ≤ charCount ∧ charCount ≤ 500)
  let s14 : StageSt :=
    if lenHit then
      ⟨st.cp + 0.2, st.an.map (fun a => { a with contentLengthSuspicious := true })⟩
    else st
  let s15 :=
    if avgWordLength > 12 then
      ⟨s14.cp + 0.3, s14.an.map (fun a => { a with longAvgWordLength := some avgWordLength })⟩
    else s14
  (s15, wordCount, charCount, avgWordLength)

/-- The result assembly (lines 1412-1465). -/
def assembleResult (detected hasGarbage : Bool) (cpClamped : ℚ)
    (th : ConfidenceThresholds) (textMut : Str) (an : Option Analysis)
    (matchedTerms allMatches : List Str) (wordCount charCount : Nat)
    (avgWordLength : ℚ) : DetectResult :=
  let verdict := finalVerdict detected hasGarbage cpClamped th
  { isGambling := verdict.1
    confidence := verdict.2
    checkpoint := round2 cpClamped
    details := finalDetails detected hasGarbage cpClamped th
    comment := .vstr textMut
    analysis :=
      match an with
      | some a => some
          { flags := a
            matchedTerms := matchedTerms
            allMatches := if allMatches ≠ [] then jsSetDedup allMatches else []
            wordCount := wordCount
            charCount := charCount
            avgWordLength := round2 avgWordLength }
      | none => none }

/-- The main body of `detect` after the guard (lines 954-1465), as the
composition of the stages above. -/
def detectMain (text : Str) (options : DetectOptions) : DetectResult :=
  let kv := extractKeywordArrays options.keywords
  let keyword := kv.1
  let scorepoint := kv.2
  let th := confidenceThresholds options.sensitivityLevel
  let sfNorm := morpoint options.sensitivityLevel
  let rawText := rawTextOf text
  let domainsLower := options.domains.map jsLower
  let keywordList := keywordListOf options domainsLower
  let sig := signalsStage options rawText
  let hasGarbage := sig.2
  let norm := normalizeStage sig.1 rawText
  let reconstructed := norm.2.1
  let merged := norm.2.2
  let s12 := langDomainStage options domainsLower norm.1 merged
  let customPat := createPatternRegex keyword
  let loosePat := createPatternRegex keyword true
  let tinyPat := TinyPatternRegex keyword
  let textMut := textMutOf keyword text
  let cp13 := fuzzyReconBoost s12.an (fuzzySearchCore keyword reconstructed)
    keyword scorepoint s12.cp
  let ctx : LoopCtx :=
    { keyword := keyword, keywordList := keywordList, allowlist := options.allowlist,
      domainsLower := domainsLower, sfNorm := sfNorm, textOuter := textMut,
      tinyPat := tinyPat }
  let st0 : PassSt :=
    { checkpoint := cp13, allMatches := [], matchedTerms := [], fuzzyHistory := [],
      detected := false, analysis := s12.an }
  let stF := detectionPasses.foldl (passStep ctx merged customPat loosePat tinyPat) st0
  let content := contentStage ⟨stF.checkpoint, stF.analysis⟩ rawText
  let cpClamped := parseNumber content.1.cp sfNorm
  assembleResult stF.detected hasGarbage cpClamped th textMut content.1.an
    stF.matchedTerms stF.allMatches content.2.1 content.2.2.1 content.2.2.2


/-- `detect` (lines 902-1466): the short-text guard of lines 943-952, then
the main pipeline. -/
def detect (text : JsVal) (options : DetectOptions := {}) : DetectResult :=
  match text with
  | .vstr s =>
      if s = [] ∨ (jsTrim s).length < 2 then earlyResult (.vstr s)
      else detectMain s options
  | v => earlyResult v

/-- `detectBatch` (lines 1496-1502): element-wise `detect` over an array,
a non-array input being coerced by `String(...)` into a one-element
batch. -/
def detectBatch (texts : JsVal) (options : DetectOptions := {}) : List DetectResult :=
  match texts with
  | .varr l => l.map (fun t => detect t options)
  | x => [detect (.vstr (jsString x)) options]

/-- The default options record (every field at its default). -/
def optsD : DetectOptions := {}

/-- The scorepoint array extracted from the default keywords (all 1). -/
def kwScoreD : List ℚ := [1, 1, 1, 1, 1, 1, 1, 1, 1, 1, 1, 1, 1]

/-- The support-keyword list under default options. -/
def kwListD : List Str := keywordListOf optsD []

/-- The benign sample text of the round-trip example. -/
def c4input : Str := str "This is a normal sentence with no gambling content."

/-- `rawTextOf c4input`: the normalizer pads the final period. -/
def c4raw : Str := str "This is a normal sentence with no gambling content ."

/-- The fuzzy session text: `gambling` replaced by the support keyword
`gambli`. -/
def tsC4 : Str := str "This is a normal sentence with no gambli content ."

/-- `cleanWeirdPatterns c4raw`: the separator collapse glues alternating
word pairs. -/
def t2C4 : Str := str "Thisisa normalsentencewithnogamblingcontent ."

/-- `cleanWeirdPatterns t2C4`: a second collapse glues the remaining pair. -/
def g2C4 : Str := str "Thisisanormalsentencewithnogamblingcontent ."

/-- The whitespace-stripped probe text shared by all passes. -/
def gluedC4 : Str := str "Thisisanormalsentencewithnogamblingcontent."

/-- The whitespace-stripped fuzzy session text. -/
def tsGluedC4 : Str := str "Thisisanormalsentencewithnogamblicontent."

/-- `combineShortWords c4raw` (`is` + `a` joined). -/
def cswC4 : Str := str "This isa normal sentence with no gambling content ."

/-- The single pattern match the standard regex finds in the glued text. -/
def gcm : Str := str "gamblingconte"

/-- The custom pattern built from the default keywords. -/
def cpatC4 : Option Regex := createPatternRegex defaultKeywords

/-- The loose pattern built from the default keywords. -/
def lpatC4 : Option Regex := createPatternRegex defaultKeywords true

/-- The tiny pattern built from the default keywords. -/
def tpatC4 : Option Regex := TinyPatternRegex defaultKeywords

/-- The custom pattern, unwrapped. -/
def cpatC4R : Regex := cpatC4.getD .eps

/-- The loose pattern, unwrapped. -/
def lpatC4R : Regex := lpatC4.getD .eps

/-- The tiny pattern, unwrapped. -/
def tpatC4R : Regex := tpatC4.getD .eps

/-- The loop context of the pattern search under default options on the
sample text. -/
def ctxC4 : LoopCtx :=
  ⟨defaultKeywords, kwListD, [], [], morpoint 3, c4input, tpatC4⟩

/-! # Theorems -/

/-! ## Shared helper lemmas -/

theorem sensitivityFactor_nonneg (lvl : ℚ) : 0 ≤ sensitivityFactor lvl := by
  unfold sensitivityFactor
  have h1 : (1 : ℚ) ≤ max 1 (min 5 lvl) := le_max_left _ _
  have := le_trans zero_le_one h1
  positivity

theorem thresholds_low_le_medium (lvl : ℚ) :
    (confidenceThresholds lvl).low ≤ (confidenceThresholds lvl).medium := by
  unfold confidenceThresholds
  have hf := sensitivityFactor_nonneg lvl
  apply max_le
  · exact le_trans (by norm_num) (le_max_left (0.9 : ℚ) _)
  · exact le_trans (mul_le_mul_of_nonneg_right (by norm_num) hf)
      (le_max_right (0.9 : ℚ) _)

theorem thresholds_medium_le_high (lvl : ℚ) :
    (confidenceThresholds lvl).medium ≤ (confidenceThresholds lvl).high := by
  unfold confidenceThresholds
  have hf := sensitivityFactor_nonneg lvl
  apply max_le
  · exact le_trans (by norm_num) (le_max_left (1.2 : ℚ) _)
  · exact le_trans (mul_le_mul_of_nonneg_right (by norm_num) hf)
      (le_max_right (1.2 : ℚ) _)

theorem parseNumber_bounds (c m : ℚ) (hm : 0 ≤ m) :
    0 ≤ parseNumber c (some m) ∧ parseNumber c (some m) ≤ m := by
  unfold parseNumber
  by_cases h1 : c < 0
  · simp only [h1, if_pos, if_true]
    exact ⟨le_refl 0, hm⟩
  · by_cases h2 : c > m
    · simp only [h1, h2, if_false, if_true, if_neg, ite_true, ite_false]
      exact ⟨hm, le_refl m⟩
    · simp only [h1, h2, if_neg, ite_false, not_false_iff]
      exact ⟨le_of_not_lt h1, le_of_not_lt h2⟩

theorem round2_bounds (x : ℚ) (k : ℤ) (hx0 : 0 ≤ x) (hxk : x ≤ (k : ℚ)) :
    0 ≤ round2 x ∧ round2 x ≤ (k : ℚ) := by
  unfold round2
  constructor
  · have h : (0 : ℤ) ≤ ⌊x * 100 + 1/2⌋ := by
      apply Int.le_floor.mpr
      push_cast
      linarith
    have : (0 : ℚ) ≤ (⌊x * 100 + 1/2⌋ : ℚ) := by exact_mod_cast h
    linarith
  · have hcast : (k : ℚ) * 100 + 1/2 = ((100 * k : ℤ) : ℚ) + 1/2 := by
      push_cast
      ring
    have hle : ⌊x * 100 + 1/2⌋ ≤ ⌊(k : ℚ) * 100 + 1/2⌋ :=
      Int.floor_mono (by linarith)
    rw [hcast, Int.floor_int_add] at hle
    have hhalf : ⌊(1/2 : ℚ)⌋ = 0 := by norm_num
    rw [hhalf, add_zero] at hle
    have h2 : ((⌊x * 100 + 1/2⌋ : ℤ) : ℚ) ≤ ((100 * k : ℤ) : ℚ) := by exact_mod_cast hle
    push_cast at h2
    linarith

theorem reported_bounds (c lvl cap : ℚ) (k : ℤ)
    (hcap : morpoint lvl = some cap) (hk : (k : ℚ) = cap) (h0 : 0 ≤ cap) :
    0 ≤ reportedCheckpoint c lvl ∧ reportedCheckpoint c lvl ≤ cap := by
  unfold reportedCheckpoint
  rw [hcap]
  have pb := parseNumber_bounds c cap h0
  have rb := round2_bounds (parseNumber c (some cap)) k pb.1 (by rw [hk]; exact pb.2)
  exact ⟨rb.1, hk ▸ rb.2⟩

/-! ## C1 : the final classification -/

/-- C1, counterexample.  The claim says a fired pattern match
(`detected = true`) forces `isGambling = true` even when the clamped
checkpoint is below the low threshold.  In the code the outer conditional
is then taken but none of its tier branches fires, so the result object
stays at its initialization `isGambling = false, confidence = "none"` (and
the garbage fallback is skipped as well).  Shown here at the state reached
with `sensitivityLevel = 0` (checkpoint clamped to `0`, low threshold
`0.45`) after a gated pattern match. -/
theorem gb_C1_counterexample :
    finalVerdict true false 0 (confidenceThresholds 0) = (false, Confidence.cnone) := by
  with_unfolding_all decide

/-- C1, amended: the final classification of `detect` satisfies
`isGambling = (checkpoint ≥ low) ∨ (¬detected ∧ garbage)`, with the tier
given by the highest threshold reached; when a pattern match fired but the
clamped checkpoint is below the low threshold the result remains
`isGambling = false, confidence = "none"`, and the garbage fallback fires
only when no pattern match fired and the checkpoint is below the low
threshold. -/
theorem gb_C1_amended (d g : Bool) (cp lvl : ℚ) :
    (finalVerdict d g cp (confidenceThresholds lvl)).1 =
      (decide (cp ≥ (confidenceThresholds lvl).low) || (!d && g)) ∧
    (finalVerdict d g cp (confidenceThresholds lvl)).2 =
      (if cp ≥ (confidenceThresholds lvl).high then Confidence.chigh
       else if cp ≥ (confidenceThresholds lvl).medium then Confidence.cmedium
       else if cp ≥ (confidenceThresholds lvl).low then Confidence.clow
       else if !d && g then Confidence.cmedium
       else Confidence.cnone) := by
  have h1 := thresholds_low_le_medium lvl
  have h2 := thresholds_medium_le_high lvl
  unfold finalVerdict
  by_cases hh : cp ≥ (confidenceThresholds lvl).high
  · have hm : cp ≥ (confidenceThresholds lvl).medium := le_trans h2 hh
    have hl : cp ≥ (confidenceThresholds lvl).low := le_trans h1 hm
    simp [hh, hm, hl]
  · by_cases hm : cp ≥ (confidenceThresholds lvl).medium
    · have hl : cp ≥ (confidenceThresholds lvl).low := le_trans h1 hm
      simp [hh, hm, hl]
    · by_cases hl : cp ≥ (confidenceThresholds lvl).low
      · simp [hh, hm, hl]
      · cases d <;> cases g <;> simp [hh, hm, hl]

/-! ## C2 : the confidence thresholds -/

/-- C2: the thresholds are computed exactly by the claimed formulas with
`f = clamp(sensitivityLevel, 1, 5) / 3`, and (for every sensitivity level,
in particular the integers 1..5) `low ≤ medium ≤ high`. -/
theorem gb_C2_thresholds (lvl : ℚ) :
    confidenceThresholds lvl =
      { low := max 0.45 (0.5 * (max 1 (min 5 lvl) / 3))
        medium := max 0.9 (0.8 * (max 1 (min 5 lvl) / 3))
        high := max 1.2 (2.5 * (max 1 (min 5 lvl) / 3)) } ∧
    (confidenceThresholds lvl).low ≤ (confidenceThresholds lvl).medium ∧
    (confidenceThresholds lvl).medium ≤ (confidenceThresholds lvl).high :=
  ⟨rfl, thresholds_low_le_medium lvl, thresholds_medium_le_high lvl⟩

/-! ## C3 : the reported checkpoint is clamped into the sensitivity cap -/

/-- C3: for every raw accumulated score and every integer sensitivity level
in 0..5, the checkpoint reported by `detect` (clamped by `parseNumber`
against `morpoint level` and rounded to two decimals) lies in `[0, cap]`,
where the cap is the reversed mapping `0↦0, 1↦5, 2↦4, 3↦3, 4↦2, 5↦1`; in
particular it is never negative. -/
theorem gb_C3_checkpoint_clamped (c : ℚ) (n : ℤ) (h0 : 0 ≤ n) (h5 : n ≤ 5) :
    ∃ cap : ℚ, morpoint (n : ℚ) = some cap ∧
      cap = (if n = 0 then 0 else 6 - (n : ℚ)) ∧
      0 ≤ reportedCheckpoint c (n : ℚ) ∧ reportedCheckpoint c (n : ℚ) ≤ cap := by
  interval_cases n
  · exact ⟨0, by norm_num [morpoint], by norm_num,
      reported_bounds c 0 0 0 (by norm_num [morpoint]) (by norm_num) (by norm_num)⟩
  · exact ⟨5, by norm_num [morpoint], by norm_num,
      reported_bounds c 1 5 5 (by norm_num [morpoint]) (by norm_num) (by norm_num)⟩
  · exact ⟨4, by norm_num [morpoint], by norm_num,
      reported_bounds c 2 4 4 (by norm_num [morpoint]) (by norm_num) (by norm_num)⟩
  · exact ⟨3, by norm_num [morpoint], by norm_num,
      reported_bounds c 3 3 3 (by norm_num [morpoint]) (by norm_num) (by norm_num)⟩
  · exact ⟨2, by norm_num [morpoint], by norm_num,
      reported_bounds c 4 2 2 (by norm_num [morpoint]) (by norm_num) (by norm_num)⟩
  · exact ⟨1, by norm_num [morpoint], by norm_num,
      reported_bounds c 5 1 1 (by norm_num [morpoint]) (by norm_num) (by norm_num)⟩

/-- Witness for C3 at the concrete raw score `7` and level `2`. -/
theorem gb_C3_witness :
    ∃ cap : ℚ, morpoint ((2 : ℤ) : ℚ) = some cap ∧
      cap = (if (2 : ℤ) = 0 then 0 else 6 - ((2 : ℤ) : ℚ)) ∧
      0 ≤ reportedCheckpoint 7 ((2 : ℤ) : ℚ) ∧
      reportedCheckpoint 7 ((2 : ℤ) : ℚ) ≤ cap :=
  gb_C3_checkpoint_clamped 7 2 (by decide) (by decide)

/-! ## C6 : the garbage-character detector -/

/-- C6, counterexample: the source default threshold is `0.6`, not the
claimed `0.45`.  On `"ab##"` (garbage ratio exactly `0.5`) the function at
its default returns `false`, while at the claimed default `0.45` it would
return `true`. -/
theorem gb_C6_counterexample :
    isMostlyAsciiGarbage (str "ab##") = false ∧
    isMostlyAsciiGarbage (str "ab##") 0.45 = true := by
  with_unfolding_all decide

/-- C6, amended: the source default threshold is `0.6` (`detect` calls the
function with an explicit `0.45`), and for every threshold the function
returns `true` exactly when the text is non-empty and the ratio of
characters outside `[A-Za-z0-9\s.,!?]` to the total length is `≥` the
threshold; in particular a non-empty string with exactly 45% such
characters triggers it at threshold `0.45` and one with a smaller ratio
such as 44.9% does not. -/
theorem gb_C6_amended (text : Str) (threshold : ℚ) :
    isMostlyAsciiGarbage text threshold = true ↔
      text ≠ [] ∧
        ((text.filter isGarbageChar).length : ℚ) / (text.length : ℚ) ≥ threshold := by
  unfold isMostlyAsciiGarbage
  split
  · next h => simp [h]
  · next h => simp [h]

/-- Witness for C6 amended: a 20-character string with exactly 9 garbage
characters (ratio exactly 45%) triggers at threshold `0.45`, via the
amended theorem. -/
theorem gb_C6_amended_witness :
    isMostlyAsciiGarbage (str "abcdefghijk#########") 0.45 = true :=
  (gb_C6_amended (str "abcdefghijk#########") 0.45).mpr
    ⟨by decide, by with_unfolding_all decide⟩

/-! ## C7 : includeAnalysis is not verdict-neutral -/

/-- C7, counterexample: the reconstructed-text fuzzy bonus of lines
1161-1175 reads flags through `analysis?.`; with `includeAnalysis = true`
(analysis object present, garbage flag set) a fuzzy keyword match adds
`0.06` to the checkpoint, while with `includeAnalysis = false` (analysis is
`null`) the same state leaves the checkpoint unchanged — so the two runs'
verdict-relevant state differs. -/
theorem gb_C7_counterexample :
    fuzzyReconBoost (some { garbageDetected := true })
        [⟨str "sl0t", str "slot", 0.8⟩] [str "slot"] [1] (1/2) = 1/2 + 0.06 ∧
    fuzzyReconBoost none
        [⟨str "sl0t", str "slot", 0.8⟩] [str "slot"] [1] (1/2) = 1/2 ∧
    (1/2 + 0.06 : ℚ) ≠ 1/2 := by
  refine ⟨by with_unfolding_all decide, by with_unfolding_all decide, by norm_num⟩

/-- C7, amended: the verdict is not independent of `includeAnalysis`: the
reconstructed-text fuzzy bonus (lines 1161-1175) can add to the checkpoint
only when `includeAnalysis` is true.  With `includeAnalysis = false`
(analysis `null`) the step never changes the checkpoint, and even with it
true the step is neutral when none of the garbage/word-separation/
non-standard-characters flags was set. -/
theorem gb_C7_amended (fuzzyText : List FuzzyResult) (keyword : List Str)
    (scorepoint : List ℚ) (cp : ℚ) (a : Analysis) :
    fuzzyReconBoost none fuzzyText keyword scorepoint cp = cp ∧
    (a.garbageDetected = false → a.wordSeparationDetected = false →
      a.containsNonStandardChars = false →
      fuzzyReconBoost (some a) fuzzyText keyword scorepoint cp = cp) := by
  refine ⟨rfl, fun h1 h2 h3 => ?_⟩
  unfold fuzzyReconBoost
  simp [h1, h2, h3]

/-- Witness for C7 amended at a concrete state. -/
theorem gb_C7_amended_witness :
    fuzzyReconBoost none [] [] [] 0 = 0 ∧
    fuzzyReconBoost (some {}) [] [] [] 0 = 0 :=
  ⟨(gb_C7_amended [] [] [] 0 {}).1, (gb_C7_amended [] [] [] 0 {}).2 rfl rfl rfl⟩

/-! ## C9 : fuzzySearch error behavior -/

/-- C9, counterexample: the claim's "only if" fails — `fuzzySearch` also
raises a `TypeError` when the list is an array and the query a (non-blank)
string but a list element is not a string (`item.toLowerCase` is not a
function). -/
theorem gb_C9_counterexample :
    fuzzySearch (.varr [.vnum 1]) (.vstr (str "ab")) =
      .error (.typeError (str "item.toLowerCase is not a function")) := by
  with_unfolding_all rfl

/-- C9, amended: `fuzzySearch` raises a type error when its list argument
is not an array or its query argument is not a string; a valid blank
(empty or all-whitespace) query returns the empty result list without
error; an all-string list with a string query never errors.  (Beyond the
claim, a type error also escapes when an array list contains a non-string
element, per the counterexample.) -/
theorem gb_C9_amended :
    (∀ (x q : JsVal) (md ms : ℚ), (∀ l, x ≠ .varr l) →
        ∃ e, fuzzySearch x q md ms = .error e) ∧
    (∀ (l : List JsVal) (q : JsVal) (md ms : ℚ), (∀ s, q ≠ .vstr s) →
        ∃ e, fuzzySearch (.varr l) q md ms = .error e) ∧
    (∀ (l : List JsVal) (s : Str) (md ms : ℚ), jsTrim s = [] →
        fuzzySearch (.varr l) (.vstr s) md ms = .ok []) ∧
    (∀ (l : List Str) (s : Str) (md ms : ℚ),
        ∃ r, fuzzySearch (.varr (l.map .vstr)) (.vstr s) md ms = .ok r) := by
  refine ⟨?_, ?_, ?_, ?_⟩
  · intro x q md ms hx
    cases x with
    | varr l => exact absurd rfl (hx l)
    | vstr s => exact ⟨_, rfl⟩
    | vnum n => exact ⟨_, rfl⟩
    | vbool b => exact ⟨_, rfl⟩
    | vnull => exact ⟨_, rfl⟩
    | vundef => exact ⟨_, rfl⟩
  · intro l q md ms hq
    cases q with
    | vstr s => exact absurd rfl (hq s)
    | varr a => exact ⟨_, rfl⟩
    | vnum n => exact ⟨_, rfl⟩
    | vbool b => exact ⟨_, rfl⟩
    | vnull => exact ⟨_, rfl⟩
    | vundef => exact ⟨_, rfl⟩
  · intro l s md ms hblank
    unfold fuzzySearch
    simp [hblank]
  · intro l s md ms
    by_cases hblank : jsTrim s = []
    · exact ⟨[], by unfold fuzzySearch; simp [hblank]⟩
    · have hmap : itemsAsStrings (l.map JsVal.vstr) = .ok l := by
        induction l with
        | nil => rfl
        | cons hd tl ih => simp [itemsAsStrings, ih]
      refine ⟨fuzzySearchCore l s md ms, ?_⟩
      show (if jsTrim s = [] then (Except.ok [] : Except JsError (List FuzzyResult))
            else match itemsAsStrings (l.map JsVal.vstr) with
                 | .ok strs => .ok (fuzzySearchCore strs s md ms)
                 | .error e => .error e) = _
      rw [if_neg hblank, hmap]

/-- Witness for C9 amended at concrete inputs. -/
theorem gb_C9_amended_witness :
    (∃ e, fuzzySearch .vnull (.vstr (str "ab")) 2 0.5 = .error e) ∧
    (∃ e, fuzzySearch (.varr []) .vnull 2 0.5 = .error e) ∧
    fuzzySearch (.varr [.vnum 1]) (.vstr (str "  ")) 2 0.5 = .ok [] ∧
    (∃ r, fuzzySearch (.varr ([str "slot"].map .vstr)) (.vstr (str "ab")) 2 0.5 = .ok r) :=
  ⟨gb_C9_amended.1 .vnull (.vstr (str "ab")) 2 0.5 (fun l h => by cases h),
   gb_C9_amended.2.1 [] .vnull 2 0.5 (fun s h => by cases h),
   gb_C9_amended.2.2.1 [.vnum 1] (str "  ") 2 0.5 (by with_unfolding_all decide),
   gb_C9_amended.2.2.2 [str "slot"] (str "ab") 2 0.5⟩

/-! ### Evaluation facts for the benign round-trip example -/

lemma c4kv : extractKeywordArrays optsD.keywords = (defaultKeywords, kwScoreD) := by
  with_unfolding_all rfl

lemma c4rT : rawTextOf c4input = c4raw := by
  with_unfolding_all rfl

lemma c4sig : signalsStage optsD c4raw = (⟨1/5, none⟩, false) := by
  with_unfolding_all rfl

lemma c4nrm : normalizeStage ⟨1/5, none⟩ c4raw = (⟨1/5, none⟩, c4raw, c4raw) := by
  with_unfolding_all rfl

lemma c4lng : langDomainStage optsD [] ⟨1/5, none⟩ c4raw = ⟨1/2, none⟩ := by
  with_unfolding_all rfl

lemma c4mut : textMutOf defaultKeywords c4input = c4input := by
  with_unfolding_all rfl

lemma c4cnt : contentStage ⟨2389/10000, none⟩ c4raw = (⟨4389/10000, none⟩, 9, 52, 52/9) := by
  with_unfolding_all rfl

lemma c4clp : parseNumber (4389/10000) (morpoint 3) = 4389/10000 := by
  with_unfolding_all rfl

lemma c4t0 : convertCommentFixed c4raw 0 = c4raw := by with_unfolding_all rfl

lemma c4t1 : convertCommentFixed c4raw 1 = c4raw := by with_unfolding_all rfl

lemma c4t2 : convertCommentFixed c4raw 2 = c4raw := by with_unfolding_all rfl

lemma c4t3 : convertCommentFixed c4raw 3 = c4raw := by with_unfolding_all rfl

lemma c4t4 : convertCommentFixed c4raw 4 = c4raw := by with_unfolding_all rfl

lemma c4t5 : convertCommentFixed c4raw 5 = c4raw := by with_unfolding_all rfl

lemma c4t6 : convertCommentFixed c4raw 6 = c4raw := by with_unfolding_all rfl

lemma c4u0 : convertCommentFixed t2C4 0 = t2C4 := by with_unfolding_all rfl

lemma c4u1 : convertCommentFixed t2C4 1 = t2C4 := by with_unfolding_all rfl

lemma c4u2 : convertCommentFixed t2C4 2 = t2C4 := by with_unfolding_all rfl

lemma c4u3 : convertCommentFixed t2C4 3 = t2C4 := by with_unfolding_all rfl

lemma c4u4 : convertCommentFixed t2C4 4 = t2C4 := by with_unfolding_all rfl

lemma c4u5 : convertCommentFixed t2C4 5 = t2C4 := by with_unfolding_all rfl

lemma c4u6 : convertCommentFixed t2C4 6 = t2C4 := by with_unfolding_all rfl

lemma c4cw1 : cleanWeirdPatterns c4raw = t2C4 := by with_unfolding_all rfl

lemma c4cw2 : cleanWeirdPatterns t2C4 = g2C4 := by with_unfolding_all rfl

lemma c4cs0 : combineShortWords c4raw = cswC4 := by with_unfolding_all rfl

lemma c4cs1 : combineShortWords t2C4 = t2C4 := by with_unfolding_all rfl

lemma c4cs2 : combineShortWords g2C4 = g2C4 := by with_unfolding_all rfl

lemma c4sw1 : stripWs t2C4 = gluedC4 := by with_unfolding_all rfl

lemma c4sw2 : stripWs g2C4 = gluedC4 := by with_unfolding_all rfl

lemma c4sw3 : stripWs tsC4 = tsGluedC4 := by with_unfolding_all rfl

lemma c4trm : jsTrim c4input = c4input := by with_unfolding_all rfl

lemma c4rs : replaceFirstSub c4raw (str "gambling") (str "gambli") = tsC4 := by
  with_unfolding_all rfl

lemma c4cpS : cpatC4 = some cpatC4R := by with_unfolding_all rfl

lemma c4lpS : lpatC4 = some lpatC4R := by with_unfolding_all rfl

lemma c4tpS : tpatC4 = some tpatC4R := by with_unfolding_all rfl

lemma c4f1 : fuzzySearchCore kwListD c4raw =
    [⟨str "gambling", str "gambli", 3/4⟩, ⟨str "a", str "app", 633/1000⟩,
     ⟨str "with", str "win", 1/2⟩, ⟨str "with", str "rich", 1/2⟩,
     ⟨str "with", str "jitu", 1/2⟩] := by
  with_unfolding_all rfl

lemma c4f2 : fuzzySearchCore kwListD t2C4 = [] := by with_unfolding_all rfl

lemma c4f3 : fuzzySearchCore defaultKeywords g2C4 = [] := by with_unfolding_all rfl

lemma c4m1 : jsMatchT true standardPatternRegex gluedC4 = [gcm] := by
  with_unfolding_all rfl

lemma c4m2 : jsMatchT true cpatC4R gluedC4 = [] := by with_unfolding_all rfl

lemma c4m3 : jsMatchT true lpatC4R gluedC4 = [] := by with_unfolding_all rfl

lemma c4m4 : jsMatchT true tpatC4R gluedC4 = [] := by with_unfolding_all rfl

lemma c4m5 : jsMatchT true standardPatternRegex tsGluedC4 = [] := by
  with_unfolding_all rfl

lemma c4m6 : jsMatchT true cpatC4R tsGluedC4 = [] := by with_unfolding_all rfl

lemma c4m7 : jsMatchT true lpatC4R tsGluedC4 = [] := by with_unfolding_all rfl

lemma c4m8 : jsMatchT true tpatC4R tsGluedC4 = [] := by with_unfolding_all rfl

lemma c4m9 : jsMatchT true shortIdRegex cswC4 = [] := by with_unfolding_all rfl

lemma c4m10 : jsMatchT true longIdRegex c4raw = [] := by with_unfolding_all rfl

lemma c4m11 : jsMatchT true shortIdRegex t2C4 = [] := by with_unfolding_all rfl

lemma c4m12 : jsMatchT true longIdRegex t2C4 = [] := by with_unfolding_all rfl

lemma c4m13 : jsMatchT true siteIdRegex c4input = [] := by with_unfolding_all rfl

lemma c4m14 : jsMatchT true tpatC4R c4raw = [] := by with_unfolding_all rfl

lemma c4m15 : jsMatchT true tpatC4R t2C4 = [] := by with_unfolding_all rfl

/-! ### Structural lemmas for the pattern-search loop

The approach loop is settled by generic one-approach lemmas whose heavy
subcomputations (regex matches, fuzzy searches, text conversions) enter as
equation hypotheses, discharged once by the evaluation facts above. -/

lemma c4faN (l : List Str) : filterAllowed [] l = l := by
  induction l with
  | nil => rfl
  | cons a t ih =>
      have h : filterAllowed [] (a :: t) = a :: filterAllowed [] t := rfl
      rw [h, ih]

lemma c4gt2 : optGT (morpoint 3) 2 = true := by with_unfolding_all rfl

lemma c4x2 : ctxC4.keywordList = kwListD := rfl

lemma c4x1 : ctxC4.keyword = defaultKeywords := rfl

lemma c4x3 : ctxC4.allowlist = [] := rfl

lemma c4x5 : ctxC4.sfNorm = morpoint 3 := rfl

lemma c4x6 : ctxC4.textOuter = c4input := rfl

lemma c4n1 : jsMatchT true standardPatternRegex (stripWs t2C4) = [gcm] := by
  rw [c4sw1]; exact c4m1

lemma c4n2 : jsMatchT true cpatC4R (stripWs t2C4) = [] := by
  rw [c4sw1]; exact c4m2

lemma c4n3 : jsMatchT true lpatC4R (stripWs t2C4) = [] := by
  rw [c4sw1]; exact c4m3

lemma c4n4 : jsMatchT true tpatC4R (stripWs t2C4) = [] := by
  rw [c4sw1]; exact c4m4

lemma c4n5 : jsMatchT true standardPatternRegex (stripWs g2C4) = [gcm] := by
  rw [c4sw2]; exact c4m1

lemma c4n6 : jsMatchT true cpatC4R (stripWs g2C4) = [] := by
  rw [c4sw2]; exact c4m2

lemma c4n7 : jsMatchT true lpatC4R (stripWs g2C4) = [] := by
  rw [c4sw2]; exact c4m3

lemma c4n8 : jsMatchT true tpatC4R (stripWs g2C4) = [] := by
  rw [c4sw2]; exact c4m4

lemma c4n9 : jsMatchT true shortIdRegex (combineShortWords t2C4) = [] := by
  rw [c4cs1]; exact c4m11

lemma c4n10 : jsMatchT true shortIdRegex (combineShortWords c4raw) = [] := by
  rw [c4cs0]; exact c4m9

lemma c4cc1 : combineShortWords (cleanWeirdPatterns c4raw) = t2C4 := by
  rw [c4cw1]; exact c4cs1

lemma c4cc2 : combineShortWords (cleanWeirdPatterns t2C4) = g2C4 := by
  rw [c4cw2]; exact c4cs2

lemma c4rng : List.range 7 = [0, 1, 2, 3, 4, 5, 6] := by with_unfolding_all rfl

/-- Standard approach, empty history: the pattern fires, the checkpoint is
not above 0.5, so the match is recorded without a break. -/
lemma c4g1a {pat : Regex} {v a : ℚ} {pT tF cv : Str} {cp : ℚ} {am mt : List Str}
    (hm : jsMatchT true pat (stripWs cv) = [gcm])
    (hcp : ¬ (0.5 : ℚ) < cp) :
    approachStep ctxC4 pT tF cv ⟨cp, am, mt, [], false, 0⟩
      ⟨some pat, v, a, .standard⟩ =
    ⟨cp, am ++ [gcm], setAdd mt (jsLower gcm), [], false, 0⟩ := by
  simp only [approachStep, hm, c4x3, c4x5, c4x6, c4trm, c4m13, c4faN, List.foldl,
    ne_eq, reduceCtorEq, eq_self_iff_true, not_true, not_false_iff, false_and,
    true_and, and_true, and_false, and_self, false_or, or_false, true_or, or_true,
    or_self, if_true, if_false, gt_iff_lt, lt_self_iff_false, zero_lt_one]
  rw [if_neg hcp]
  try with_unfolding_all rfl

/-- Standard approach with the two-session history: as above, the history
entries match nothing. -/
lemma c4g1b {pat : Regex} {v a : ℚ} {pT tF cv : Str} {cp : ℚ} {am mt : List Str}
    (hm : jsMatchT true pat (stripWs cv) = [gcm])
    (hts : jsMatchT true pat tsGluedC4 = [])
    (hcp : ¬ (0.5 : ℚ) < cp) :
    approachStep ctxC4 pT tF cv ⟨cp, am, mt, [tsC4, tsC4], false, 0⟩
      ⟨some pat, v, a, .standard⟩ =
    ⟨cp, am ++ [gcm], setAdd mt (jsLower gcm), [tsC4, tsC4], false, 0⟩ := by
  simp only [approachStep, hm, c4x3, c4x5, c4x6, c4trm, c4m13, c4sw3, hts, c4faN,
    List.foldl, ne_eq, reduceCtorEq, eq_self_iff_true, not_true, not_false_iff,
    false_and, true_and, and_true, and_false, and_self, false_or, or_false,
    true_or, or_true, or_self, if_true, if_false, gt_iff_lt, lt_self_iff_false,
    zero_lt_one]
  rw [if_neg hcp]
  try with_unfolding_all rfl

/-- Custom approach, empty history: no pattern match, the fuzzy search finds
`gambling` with score 3/4 and the session text is pushed. -/
lemma c4g2c0 {pat : Regex} {v a : ℚ} {pT tF cv : Str} {cp : ℚ} {am mt : List Str}
    (hm : jsMatchT true pat (stripWs cv) = [])
    (hfz : fuzzySearchCore kwListD tF =
      [⟨str "gambling", str "gambli", 3/4⟩, ⟨str "a", str "app", 633/1000⟩,
       ⟨str "with", str "win", 1/2⟩, ⟨str "with", str "rich", 1/2⟩,
       ⟨str "with", str "jitu", 1/2⟩])
    (hrs : replaceFirstSub tF (str "gambling") (str "gambli") = tsC4)
    (hsm : jsMatchT true pat tsGluedC4 = []) :
    approachStep ctxC4 pT tF cv ⟨cp, am, mt, [], false, 0⟩
      ⟨some pat, v, a, .custom⟩ =
    ⟨cp, am, mt, [tsC4], false, 0⟩ := by
  simp only [approachStep, hm, c4x2, c4x3, c4x5, c4x6, c4trm, c4m13, hfz, hrs,
    c4sw3, hsm, c4faN, List.foldl, ne_eq, reduceCtorEq, eq_self_iff_true,
    not_true, not_false_iff, false_and, true_and, and_true, and_false, and_self,
    false_or, or_false, true_or, or_true, or_self, if_true, if_false, gt_iff_lt,
    lt_self_iff_false, zero_lt_one]
  try with_unfolding_all rfl

/-- Custom approach with the two-session history (push then trim). -/
lemma c4g2c1 {pat : Regex} {v a : ℚ} {pT tF cv : Str} {cp : ℚ} {am mt : List Str}
    (hm : jsMatchT true pat (stripWs cv) = [])
    (hfz : fuzzySearchCore kwListD tF =
      [⟨str "gambling", str "gambli", 3/4⟩, ⟨str "a", str "app", 633/1000⟩,
       ⟨str "with", str "win", 1/2⟩, ⟨str "with", str "rich", 1/2⟩,
       ⟨str "with", str "jitu", 1/2⟩])
    (hrs : replaceFirstSub tF (str "gambling") (str "gambli") = tsC4)
    (hsm : jsMatchT true pat tsGluedC4 = []) :
    approachStep ctxC4 pT tF cv ⟨cp, am, mt, [tsC4, tsC4], false, 0⟩
      ⟨some pat, v, a, .custom⟩ =
    ⟨cp, am, mt, [tsC4, tsC4], false, 0⟩ := by
  simp only [approachStep, hm, c4x2, c4x3, c4x5, c4x6, c4trm, c4m13, hfz, hrs,
    c4sw3, hsm, c4faN, List.foldl, ne_eq, reduceCtorEq, eq_self_iff_true,
    not_true, not_false_iff, false_and, true_and, and_true, and_false, and_self,
    false_or, or_false, true_or, or_true, or_self, if_true, if_false, gt_iff_lt,
    lt_self_iff_false, zero_lt_one]
  try with_unfolding_all rfl

/-- Loose approach, one-session history: the identifier probes find
nothing, the fuzzy session is pushed. -/
lemma c4g2l0 {pat : Regex} {v a : ℚ} {pT tF cv : Str} {cp : ℚ} {am mt : List Str}
    (hm : jsMatchT true pat (stripWs cv) = [])
    (hshort : jsMatchT true shortIdRegex (combineShortWords tF) = [])
    (hlong : jsMatchT true longIdRegex tF = [])
    (hfz : fuzzySearchCore kwListD tF =
      [⟨str "gambling", str "gambli", 3/4⟩, ⟨str "a", str "app", 633/1000⟩,
       ⟨str "with", str "win", 1/2⟩, ⟨str "with", str "rich", 1/2⟩,
       ⟨str "with", str "jitu", 1/2⟩])
    (hrs : replaceFirstSub tF (str "gambling") (str "gambli") = tsC4)
    (hsm : jsMatchT true pat tsGluedC4 = []) :
    approachStep ctxC4 pT tF cv ⟨cp, am, mt, [tsC4], false, 0⟩
      ⟨some pat, v, a, .loose⟩ =
    ⟨cp, am, mt, [tsC4, tsC4], false, 1⟩ := by
  simp only [approachStep, hm, c4x2, c4x3, c4x5, c4x6, c4gt2, hshort, hlong,
    hfz, hrs, c4sw3, hsm, c4faN, List.foldl, ne_eq, reduceCtorEq,
    eq_self_iff_true, not_true, not_false_iff, false_and, true_and, and_true,
    and_false, and_self, false_or, or_false, true_or, or_true, or_self, if_true,
    if_false, gt_iff_lt, lt_self_iff_false, zero_lt_one]
  try with_unfolding_all rfl

/-- Loose approach with the two-session history. -/
lemma c4g2l1 {pat : Regex} {v a : ℚ} {pT tF cv : Str} {cp : ℚ} {am mt : List Str}
    (hm : jsMatchT true pat (stripWs cv) = [])
    (hshort : jsMatchT true shortIdRegex (combineShortWords tF) = [])
    (hlong : jsMatchT true longIdRegex tF = [])
    (hfz : fuzzySearchCore kwListD tF =
      [⟨str "gambling", str "gambli", 3/4⟩, ⟨str "a", str "app", 633/1000⟩,
       ⟨str "with", str "win", 1/2⟩, ⟨str "with", str "rich", 1/2⟩,
       ⟨str "with", str "jitu", 1/2⟩])
    (hrs : replaceFirstSub tF (str "gambling") (str "gambli") = tsC4)
    (hsm : jsMatchT true pat tsGluedC4 = []) :
    approachStep ctxC4 pT tF cv ⟨cp, am, mt, [tsC4, tsC4], false, 0⟩
      ⟨some pat, v, a, .loose⟩ =
    ⟨cp, am, mt, [tsC4, tsC4], false, 1⟩ := by
  simp only [approachStep, hm, c4x2, c4x3, c4x5, c4x6, c4gt2, hshort, hlong,
    hfz, hrs, c4sw3, hsm, c4faN, List.foldl, ne_eq, reduceCtorEq,
    eq_self_iff_true, not_true, not_false_iff, false_and, true_and, and_true,
    and_false, and_self, false_or, or_false, true_or, or_true, or_self, if_true,
    if_false, gt_iff_lt, lt_self_iff_false, zero_lt_one]
  try with_unfolding_all rfl

/-- Tiny approach after the loose run: the identifier probes and the
processed-text rebind find nothing; the fuzzy push is trimmed away. -/
lemma c4g2t {pat : Regex} {v a : ℚ} {pT tF cv : Str} {cp : ℚ} {am mt : List Str}
    (hm : jsMatchT true pat (stripWs cv) = [])
    (hshort : jsMatchT true shortIdRegex (combineShortWords tF) = [])
    (hlong : jsMatchT true longIdRegex tF = [])
    (hpt : jsMatchT true pat pT = [])
    (hfz : fuzzySearchCore kwListD tF =
      [⟨str "gambling", str "gambli", 3/4⟩, ⟨str "a", str "app", 633/1000⟩,
       ⟨str "with", str "win", 1/2⟩, ⟨str "with", str "rich", 1/2⟩,
       ⟨str "with", str "jitu", 1/2⟩])
    (hrs : replaceFirstSub tF (str "gambling") (str "gambli") = tsC4)
    (hsm : jsMatchT true pat tsGluedC4 = []) :
    approachStep ctxC4 pT tF cv ⟨cp, am, mt, [tsC4, tsC4], false, 1⟩
      ⟨some pat, v, a, .tiny⟩ =
    ⟨cp, am, mt, [tsC4, tsC4], false, 1⟩ := by
  simp only [approachStep, hm, c4x2, c4x3, c4x5, c4x6, c4gt2, hshort, hlong,
    hpt, hfz, hrs, c4sw3, hsm, c4faN, List.foldl, ne_eq, reduceCtorEq,
    eq_self_iff_true, not_true, not_false_iff, false_and, true_and, and_true,
    and_false, and_self, false_or, or_false, true_or, or_true, or_self, if_true,
    if_false, gt_iff_lt, lt_self_iff_false, zero_lt_one]
  try with_unfolding_all rfl

/-- Custom approach when both fuzzy searches are empty: the small penalty. -/
lemma c4g3c {pat : Regex} {v a : ℚ} {pT tF cv : Str} {cp : ℚ} {am mt : List Str}
    (hm : jsMatchT true pat (stripWs cv) = [])
    (hf2 : fuzzySearchCore kwListD tF = [])
    (hf3 : fuzzySearchCore defaultKeywords cv = [])
    (hts : jsMatchT true pat tsGluedC4 = []) :
    approachStep ctxC4 pT tF cv ⟨cp, am, mt, [tsC4, tsC4], false, 0⟩
      ⟨some pat, v, a, .custom⟩ =
    ⟨cp - (a - 0.002), am, mt, [tsC4, tsC4], false, 0⟩ := by
  simp only [approachStep, hm, c4x1, c4x2, c4x3, c4x5, c4x6, c4trm, c4m13, hf2,
    hf3, c4sw3, hts, c4faN, List.foldl, ne_eq, reduceCtorEq, eq_self_iff_true,
    not_true, not_false_iff, false_and, true_and, and_true, and_false, and_self,
    false_or, or_false, true_or, or_true, or_self, if_true, if_false, gt_iff_lt,
    lt_self_iff_false, zero_lt_one]
  try with_unfolding_all rfl

/-- Loose approach when both fuzzy searches are empty. -/
lemma c4g3l {pat : Regex} {v a : ℚ} {pT tF cv : Str} {cp : ℚ} {am mt : List Str}
    (hm : jsMatchT true pat (stripWs cv) = [])
    (hshort : jsMatchT true shortIdRegex (combineShortWords tF) = [])
    (hlong : jsMatchT true longIdRegex tF = [])
    (hf2 : fuzzySearchCore kwListD tF = [])
    (hf3 : fuzzySearchCore defaultKeywords cv = [])
    (hts : jsMatchT true pat tsGluedC4 = []) :
    approachStep ctxC4 pT tF cv ⟨cp, am, mt, [tsC4, tsC4], false, 0⟩
      ⟨some pat, v, a, .loose⟩ =
    ⟨cp - (a - 0.002), am, mt, [tsC4, tsC4], false, 1⟩ := by
  simp only [approachStep, hm, c4x1, c4x2, c4x3, c4x5, c4x6, c4gt2, hshort,
    hlong, hf2, hf3, c4sw3, hts, c4faN, List.foldl, ne_eq, reduceCtorEq,
    eq_self_iff_true, not_true, not_false_iff, false_and, true_and, and_true,
    and_false, and_self, false_or, or_false, true_or, or_true, or_self, if_true,
    if_false, gt_iff_lt, lt_self_iff_false, zero_lt_one]
  try with_unfolding_all rfl

/-- Tiny approach when both fuzzy searches are empty. -/
lemma c4g3t {pat : Regex} {v a : ℚ} {pT tF cv : Str} {cp : ℚ} {am mt : List Str}
    (hm : jsMatchT true pat (stripWs cv) = [])
    (hshort : jsMatchT true shortIdRegex (combineShortWords tF) = [])
    (hlong : jsMatchT true longIdRegex tF = [])
    (hpt : jsMatchT true pat pT = [])
    (hf2 : fuzzySearchCore kwListD tF = [])
    (hf3 : fuzzySearchCore defaultKeywords cv = [])
    (hts : jsMatchT true pat tsGluedC4 = []) :
    approachStep ctxC4 pT tF cv ⟨cp, am, mt, [tsC4, tsC4], false, 1⟩
      ⟨some pat, v, a, .tiny⟩ =
    ⟨cp - (a - 0.002), am, mt, [tsC4, tsC4], false, 1⟩ := by
  simp only [approachStep, hm, c4x1, c4x2, c4x3, c4x5, c4x6, c4gt2, hshort,
    hlong, hpt, hf2, hf3, c4sw3, hts, c4faN, List.foldl, ne_eq, reduceCtorEq,
    eq_self_iff_true, not_true, not_false_iff, false_and, true_and, and_true,
    and_false, and_self, false_or, or_false, true_or, or_true, or_self, if_true,
    if_false, gt_iff_lt, lt_self_iff_false, zero_lt_one]
  try with_unfolding_all rfl

/-- The `patternApproaches` literal. -/
lemma c4afE (w : ℚ) (c l t : Option Regex) : approachesFor w c l t =
    [⟨some standardPatternRegex, 0.5 * w, 0.014 * w, .standard⟩,
     ⟨c, 0.4 * w, 0.013 * w, .custom⟩,
     ⟨l, 0.3 * w, 0.011 * w, .loose⟩,
     ⟨t, 0.25 * w, 0.005 * w, .tiny⟩] := rfl

/-- First-pass approach fold, iteration 0 (empty history). -/
lemma c4fA {am mt : List Str} :
    (approachesFor 1 cpatC4 lpatC4 tpatC4).foldl
      (approachStep ctxC4 c4raw c4raw t2C4) ⟨1/2, am, mt, [], false, 0⟩ =
    ⟨1/2, am ++ [gcm], setAdd mt (jsLower gcm), [tsC4, tsC4], false, 1⟩ := by
  rw [c4afE, c4cpS, c4lpS, c4tpS, List.foldl_cons, List.foldl_cons,
    List.foldl_cons, List.foldl_cons, List.foldl_nil,
    c4g1a c4n1 (show ¬ (0.5 : ℚ) < 1/2 by with_unfolding_all decide),
    c4g2c0 c4n2 c4f1 c4rs c4m6,
    c4g2l0 c4n3 c4n10 c4m10 c4f1 c4rs c4m7,
    c4g2t c4n4 c4n10 c4m10 c4m14 c4f1 c4rs c4m8]

/-- First-pass approach fold, iterations 1-6 (two-session history). -/
lemma c4fB {am mt : List Str} :
    (approachesFor 1 cpatC4 lpatC4 tpatC4).foldl
      (approachStep ctxC4 c4raw c4raw t2C4) ⟨1/2, am, mt, [tsC4, tsC4], false, 0⟩ =
    ⟨1/2, am ++ [gcm], setAdd mt (jsLower gcm), [tsC4, tsC4], false, 1⟩ := by
  rw [c4afE, c4cpS, c4lpS, c4tpS, List.foldl_cons, List.foldl_cons,
    List.foldl_cons, List.foldl_cons, List.foldl_nil,
    c4g1b c4n1 c4m5 (show ¬ (0.5 : ℚ) < 1/2 by with_unfolding_all decide),
    c4g2c1 c4n2 c4f1 c4rs c4m6,
    c4g2l1 c4n3 c4n10 c4m10 c4f1 c4rs c4m7,
    c4g2t c4n4 c4n10 c4m10 c4m14 c4f1 c4rs c4m8]

/-- Second-pass approach fold: the standard match and the three penalties. -/
lemma c4fP2 {cp cpO : ℚ} {am mt : List Str}
    (hcp : ¬ (0.5 : ℚ) < cp)
    (hO : cp - (0.013 * 0.9 - 0.002) - (0.011 * 0.9 - 0.002) -
      (0.005 * 0.9 - 0.002) = cpO) :
    (approachesFor 0.9 cpatC4 lpatC4 tpatC4).foldl
      (approachStep ctxC4 t2C4 t2C4 g2C4) ⟨cp, am, mt, [tsC4, tsC4], false, 0⟩ =
    ⟨cpO, am ++ [gcm], setAdd mt (jsLower gcm), [tsC4, tsC4], false, 1⟩ := by
  subst hO
  rw [c4afE, c4cpS, c4lpS, c4tpS, List.foldl_cons, List.foldl_cons,
    List.foldl_cons, List.foldl_cons, List.foldl_nil,
    c4g1b c4n5 c4m5 hcp,
    c4g3c c4n6 c4f2 c4f3 c4m6,
    c4g3l c4n7 c4n9 c4m12 c4f2 c4f3 c4m7,
    c4g3t c4n8 c4n9 c4m12 c4m15 c4f2 c4f3 c4m8]

/-- Third-pass approach fold. -/
lemma c4fP3 {cp cpO : ℚ} {am mt : List Str}
    (hcp : ¬ (0.5 : ℚ) < cp)
    (hO : cp - (0.013 * 0.8 - 0.002) - (0.011 * 0.8 - 0.002) -
      (0.005 * 0.8 - 0.002) = cpO) :
    (approachesFor 0.8 cpatC4 lpatC4 tpatC4).foldl
      (approachStep ctxC4 t2C4 t2C4 g2C4) ⟨cp, am, mt, [tsC4, tsC4], false, 0⟩ =
    ⟨cpO, am ++ [gcm], setAdd mt (jsLower gcm), [tsC4, tsC4], false, 1⟩ := by
  subst hO
  rw [c4afE, c4cpS, c4lpS, c4tpS, List.foldl_cons, List.foldl_cons,
    List.foldl_cons, List.foldl_cons, List.foldl_nil,
    c4g1b c4n5 c4m5 hcp,
    c4g3c c4n6 c4f2 c4f3 c4m6,
    c4g3l c4n7 c4n9 c4m12 c4f2 c4f3 c4m7,
    c4g3t c4n8 c4n9 c4m12 c4m15 c4f2 c4f3 c4m8]

/-- One ignore iteration, given the converted texts and the approach-fold
outcome. -/
lemma c4gi {pT tF cv : Str} {w : ℚ} {cpt lpt tpt : Option Regex} {k : Nat}
    {cp cp2 : ℚ} {am am2 mt mt2 hs hs2 : List Str} {la2 : Nat}
    {an : Option Analysis}
    (h1 : convertCommentFixed pT k = tF)
    (h2 : combineShortWords (cleanWeirdPatterns tF) = cv)
    (h3 : (approachesFor w cpt lpt tpt).foldl (approachStep ctxC4 pT tF cv)
            ⟨cp, am, mt, hs, false, 0⟩ = ⟨cp2, am2, mt2, hs2, false, la2⟩) :
    ignoreStep ctxC4 pT w cpt lpt tpt ⟨cp, am, mt, hs, false, an⟩ k =
    ⟨cp2, am2, mt2, hs2, false, an⟩ := by
  simp only [ignoreStep, h1, h2, h3]
  with_unfolding_all rfl

/-- The pass body once the short-circuit guard is settled. -/
lemma c4psE {merged pT : Str} {w : ℚ} {c l t : Option Regex} {cp : ℚ}
    {am mt hs : List Str} {an : Option Analysis} {pass : (Str → Str) × ℚ}
    (hp : pass.1 merged = pT) (hw : pass.2 = w) :
    passStep ctxC4 merged c l t ⟨cp, am, mt, hs, false, an⟩ pass =
    (List.range 7).foldl (ignoreStep ctxC4 pT w c l t)
      ⟨cp, am, mt, hs, false, an⟩ := by
  subst hp hw
  with_unfolding_all rfl

/-- Pass 1 (identity converter, weight 1). -/
lemma c4p1 :
    passStep ctxC4 c4raw cpatC4 lpatC4 tpatC4 ⟨1/2, [], [], [], false, none⟩
      (fun t => t, 1) =
    ⟨1/2, [gcm, gcm, gcm, gcm, gcm, gcm, gcm], [gcm], [tsC4, tsC4], false, none⟩ := by
  rw [c4psE (show ((fun t => t, (1 : ℚ)) : (Str → Str) × ℚ).1 c4raw = c4raw from rfl)
      (show ((fun t => t, (1 : ℚ)) : (Str → Str) × ℚ).2 = 1 from rfl),
    c4rng, List.foldl_cons, List.foldl_cons, List.foldl_cons, List.foldl_cons,
    List.foldl_cons, List.foldl_cons, List.foldl_cons, List.foldl_nil,
    c4gi c4t0 c4cc1 c4fA, c4gi c4t1 c4cc1 c4fB, c4gi c4t2 c4cc1 c4fB,
    c4gi c4t3 c4cc1 c4fB, c4gi c4t4 c4cc1 c4fB, c4gi c4t5 c4cc1 c4fB,
    c4gi c4t6 c4cc1 c4fB]
  with_unfolding_all rfl

/-- Pass 2 (weird-pattern cleaner, weight 0.9): each iteration loses
0.0201. -/
lemma c4p2 :
    passStep ctxC4 c4raw cpatC4 lpatC4 tpatC4
      ⟨1/2, [gcm, gcm, gcm, gcm, gcm, gcm, gcm], [gcm], [tsC4, tsC4], false, none⟩
      (cleanWeirdPatterns, 0.9) =
    ⟨3593/10000, [gcm, gcm, gcm, gcm, gcm, gcm, gcm, gcm, gcm, gcm, gcm, gcm, gcm, gcm], [gcm], [tsC4, tsC4], false, none⟩ := by
  rw [c4psE (show ((cleanWeirdPatterns, (0.9 : ℚ)) : (Str → Str) × ℚ).1 c4raw = t2C4
        from c4cw1)
      (show ((cleanWeirdPatterns, (0.9 : ℚ)) : (Str → Str) × ℚ).2 = 0.9 from rfl),
    c4rng, List.foldl_cons, List.foldl_cons, List.foldl_cons, List.foldl_cons,
    List.foldl_cons, List.foldl_cons, List.foldl_cons, List.foldl_nil,
    c4gi c4u0 c4cc2 (c4fP2 (show ¬ (0.5 : ℚ) < 1/2 by with_unfolding_all decide)
      (show (1/2 : ℚ) - (0.013 * 0.9 - 0.002) - (0.011 * 0.9 - 0.002) -
        (0.005 * 0.9 - 0.002) = 4799/10000 by with_unfolding_all rfl)),
    c4gi c4u1 c4cc2 (c4fP2 (show ¬ (0.5 : ℚ) < 4799/10000 by with_unfolding_all decide)
      (show (4799/10000 : ℚ) - (0.013 * 0.9 - 0.002) - (0.011 * 0.9 - 0.002) -
        (0.005 * 0.9 - 0.002) = 4598/10000 by with_unfolding_all rfl)),
    c4gi c4u2 c4cc2 (c4fP2 (show ¬ (0.5 : ℚ) < 4598/10000 by with_unfolding_all decide)
      (show (4598/10000 : ℚ) - (0.013 * 0.9 - 0.002) - (0.011 * 0.9 - 0.002) -
        (0.005 * 0.9 - 0.002) = 4397/10000 by with_unfolding_all rfl)),
    c4gi c4u3 c4cc2 (c4fP2 (show ¬ (0.5 : ℚ) < 4397/10000 by with_unfolding_all decide)
      (show (4397/10000 : ℚ) - (0.013 * 0.9 - 0.002) - (0.011 * 0.9 - 0.002) -
        (0.005 * 0.9 - 0.002) = 4196/10000 by with_unfolding_all rfl)),
    c4gi c4u4 c4cc2 (c4fP2 (show ¬ (0.5 : ℚ) < 4196/10000 by with_unfolding_all decide)
      (show (4196/10000 : ℚ) - (0.013 * 0.9 - 0.002) - (0.011 * 0.9 - 0.002) -
        (0.005 * 0.9 - 0.002) = 3995/10000 by with_unfolding_all rfl)),
    c4gi c4u5 c4cc2 (c4fP2 (show ¬ (0.5 : ℚ) < 3995/10000 by with_unfolding_all decide)
      (show (3995/10000 : ℚ) - (0.013 * 0.9 - 0.002) - (0.011 * 0.9 - 0.002) -
        (0.005 * 0.9 - 0.002) = 3794/10000 by with_unfolding_all rfl)),
    c4gi c4u6 c4cc2 (c4fP2 (show ¬ (0.5 : ℚ) < 3794/10000 by with_unfolding_all decide)
      (show (3794/10000 : ℚ) - (0.013 * 0.9 - 0.002) - (0.011 * 0.9 - 0.002) -
        (0.005 * 0.9 - 0.002) = 3593/10000 by with_unfolding_all rfl))]
  with_unfolding_all rfl

/-- Pass 3 (cleaner plus short-word gluing, weight 0.8): each iteration
loses 0.0172. -/
lemma c4p3 :
    passStep ctxC4 c4raw cpatC4 lpatC4 tpatC4
      ⟨3593/10000, [gcm, gcm, gcm, gcm, gcm, gcm, gcm, gcm, gcm, gcm, gcm, gcm, gcm, gcm], [gcm], [tsC4, tsC4], false, none⟩
      (fun t => combineShortWords (cleanWeirdPatterns t), 0.8) =
    ⟨2389/10000, [gcm, gcm, gcm, gcm, gcm, gcm, gcm, gcm, gcm, gcm, gcm, gcm, gcm, gcm, gcm, gcm, gcm, gcm, gcm, gcm, gcm], [gcm], [tsC4, tsC4], false, none⟩ := by
  rw [c4psE (show ((fun t => combineShortWords (cleanWeirdPatterns t), (0.8 : ℚ)) :
        (Str → Str) × ℚ).1 c4raw = t2C4 from c4cc1)
      (show ((fun t => combineShortWords (cleanWeirdPatterns t), (0.8 : ℚ)) :
        (Str → Str) × ℚ).2 = 0.8 from rfl),
    c4rng, List.foldl_cons, List.foldl_cons, List.foldl_cons, List.foldl_cons,
    List.foldl_cons, List.foldl_cons, List.foldl_cons, List.foldl_nil,
    c4gi c4u0 c4cc2 (c4fP3 (show ¬ (0.5 : ℚ) < 3593/10000 by with_unfolding_all decide)
      (show (3593/10000 : ℚ) - (0.013 * 0.8 - 0.002) - (0.011 * 0.8 - 0.002) -
        (0.005 * 0.8 - 0.002) = 3421/10000 by with_unfolding_all rfl)),
    c4gi c4u1 c4cc2 (c4fP3 (show ¬ (0.5 : ℚ) < 3421/10000 by with_unfolding_all decide)
      (show (3421/10000 : ℚ) - (0.013 * 0.8 - 0.002) - (0.011 * 0.8 - 0.002) -
        (0.005 * 0.8 - 0.002) = 3249/10000 by with_unfolding_all rfl)),
    c4gi c4u2 c4cc2 (c4fP3 (show ¬ (0.5 : ℚ) < 3249/10000 by with_unfolding_all decide)
      (show (3249/10000 : ℚ) - (0.013 * 0.8 - 0.002) - (0.011 * 0.8 - 0.002) -
        (0.005 * 0.8 - 0.002) = 3077/10000 by with_unfolding_all rfl)),
    c4gi c4u3 c4cc2 (c4fP3 (show ¬ (0.5 : ℚ) < 3077/10000 by with_unfolding_all decide)
      (show (3077/10000 : ℚ) - (0.013 * 0.8 - 0.002) - (0.011 * 0.8 - 0.002) -
        (0.005 * 0.8 - 0.002) = 2905/10000 by with_unfolding_all rfl)),
    c4gi c4u4 c4cc2 (c4fP3 (show ¬ (0.5 : ℚ) < 2905/10000 by with_unfolding_all decide)
      (show (2905/10000 : ℚ) - (0.013 * 0.8 - 0.002) - (0.011 * 0.8 - 0.002) -
        (0.005 * 0.8 - 0.002) = 2733/10000 by with_unfolding_all rfl)),
    c4gi c4u5 c4cc2 (c4fP3 (show ¬ (0.5 : ℚ) < 2733/10000 by with_unfolding_all decide)
      (show (2733/10000 : ℚ) - (0.013 * 0.8 - 0.002) - (0.011 * 0.8 - 0.002) -
        (0.005 * 0.8 - 0.002) = 2561/10000 by with_unfolding_all rfl)),
    c4gi c4u6 c4cc2 (c4fP3 (show ¬ (0.5 : ℚ) < 2561/10000 by with_unfolding_all decide)
      (show (2561/10000 : ℚ) - (0.013 * 0.8 - 0.002) - (0.011 * 0.8 - 0.002) -
        (0.005 * 0.8 - 0.002) = 2389/10000 by with_unfolding_all rfl))]
  with_unfolding_all rfl

/-- The full three-pass loop on the benign input. -/
lemma c4lp :
    detectionPasses.foldl (passStep ctxC4 c4raw cpatC4 lpatC4 tpatC4)
      ⟨1/2, [], [], [], false, none⟩ =
    ⟨2389/10000, [gcm, gcm, gcm, gcm, gcm, gcm, gcm, gcm, gcm, gcm, gcm, gcm, gcm, gcm, gcm, gcm, gcm, gcm, gcm, gcm, gcm], [gcm], [tsC4, tsC4], false, none⟩ := by
  rw [show detectionPasses = [(fun t => t, 1), (cleanWeirdPatterns, 0.9),
      (fun t => combineShortWords (cleanWeirdPatterns t), 0.8)] from rfl,
    List.foldl_cons, List.foldl_cons, List.foldl_cons, List.foldl_nil,
    c4p1, c4p2, c4p3]

/-- The reconstructed-text bonus is the identity when `analysis` is null. -/
lemma fuzzyReconBoost_none (fz : List FuzzyResult) (kw : List Str) (sp : List ℚ)
    (cp : ℚ) : fuzzyReconBoost none fz kw sp cp = cp := rfl

/-- `detectMain` through its stages: each stage outcome enters as an
equation hypothesis. -/
lemma detectMain_via (text : Str) (options : DetectOptions)
    (kvv : List Str × List ℚ) (rawText : Str) (s7v : StageSt × Bool)
    (n10v : StageSt × Str × Str) (s12v : StageSt) (tmut : Str) (cp13v : ℚ)
    (stFv : PassSt) (contv : StageSt × Nat × Nat × ℚ) (cpCv : ℚ)
    (h1 : extractKeywordArrays options.keywords = kvv)
    (h2 : rawTextOf text = rawText)
    (h3 : signalsStage options rawText = s7v)
    (h4 : normalizeStage s7v.1 rawText = n10v)
    (h5 : langDomainStage options (options.domains.map jsLower) n10v.1 n10v.2.2 = s12v)
    (h6 : textMutOf kvv.1 text = tmut)
    (h7 : fuzzyReconBoost s12v.an (fuzzySearchCore kvv.1 n10v.2.1) kvv.1 kvv.2 s12v.cp = cp13v)
    (h8 : detectionPasses.foldl
            (passStep
              ⟨kvv.1, keywordListOf options (options.domains.map jsLower),
               options.allowlist, options.domains.map jsLower,
               morpoint options.sensitivityLevel, tmut, TinyPatternRegex kvv.1⟩
              n10v.2.2 (createPatternRegex kvv.1) (createPatternRegex kvv.1 true)
              (TinyPatternRegex kvv.1))
            ⟨cp13v, [], [], [], false, s12v.an⟩ = stFv)
    (h9 : contentStage ⟨stFv.checkpoint, stFv.analysis⟩ rawText = contv)
    (h10 : parseNumber contv.1.cp (morpoint options.sensitivityLevel) = cpCv) :
    detectMain text options =
      assembleResult stFv.detected s7v.2 cpCv
        (confidenceThresholds options.sensitivityLevel) tmut contv.1.an
        stFv.matchedTerms stFv.allMatches contv.2.1 contv.2.2.1 contv.2.2.2 := by
  subst h1 h2 h3 h4 h5 h6 h7 h8 h9 h10
  rfl

/-- C4: on the benign sample text with default options, `detect` returns
`isGambling = false`, `confidence = "none"` and reported checkpoint
`0.44`, strictly below the low threshold `0.5` of sensitivity level 3. -/
theorem gb_C4_round_trip :
    detect (.vstr c4input) {} =
      { isGambling := false, confidence := .cnone, checkpoint := 11/25,
        details := str "No gambling content detected",
        comment := .vstr c4input, analysis := none } ∧
    (11/25 : ℚ) < (confidenceThresholds optsD.sensitivityLevel).low := by
  constructor
  · have hvia := detectMain_via c4input optsD (defaultKeywords, kwScoreD) c4raw
      (⟨1/5, none⟩, false) (⟨1/5, none⟩, c4raw, c4raw) ⟨1/2, none⟩ c4input (1/2)
      ⟨2389/10000, [gcm, gcm, gcm, gcm, gcm, gcm, gcm, gcm, gcm, gcm, gcm, gcm,
        gcm, gcm, gcm, gcm, gcm, gcm, gcm, gcm, gcm], [gcm], [tsC4, tsC4], false,
        none⟩
      (⟨4389/10000, none⟩, 9, 52, 52/9) (4389/10000)
      c4kv c4rT c4sig c4nrm c4lng c4mut
      (fuzzyReconBoost_none (fuzzySearchCore defaultKeywords c4raw)
        defaultKeywords kwScoreD (1/2))
      c4lp c4cnt c4clp
    exact (show detect (.vstr c4input) {} = detect (.vstr c4input) optsD from
        rfl).trans
      ((show detect (.vstr c4input) optsD = detectMain c4input optsD by
          with_unfolding_all rfl).trans
        (hvia.trans (by with_unfolding_all rfl)))
  · with_unfolding_all decide

/-- C5, amended: the allowlist filter removes exactly the matches whose
whole text lower-cases to an allowlist entry; any other match, including
an allowlisted keyword decorated with affixes such as digits, survives. -/
theorem gb_C5_amended (allowlist ms : List Str) (m : Str) :
    m ∈ filterAllowed allowlist ms ↔
      m ∈ ms ∧ ¬ ∃ k ∈ allowlist, jsLower k = jsLower m := by
  simp [filterAllowed, allowSetHas, List.mem_filter, List.mem_map]

/-- C8: every input that is the empty string, has trimmed length below 2,
or is not a string at all short-circuits to the early result: no
detection, confidence `none`, checkpoint 0, and the comment echoing the
input unchanged. -/
theorem gb_C8_guard :
    (∀ (opts : DetectOptions) (s : Str), s = [] ∨ (jsTrim s).length < 2 →
      detect (.vstr s) opts =
        { isGambling := false, confidence := .cnone, checkpoint := 0,
          details := str "Text too short for analysis", comment := .vstr s,
          analysis := none }) ∧
    (∀ (opts : DetectOptions) (v : JsVal), (∀ s, v ≠ .vstr s) →
      detect v opts =
        { isGambling := false, confidence := .cnone, checkpoint := 0,
          details := str "Text too short for analysis", comment := v,
          analysis := none }) := by
  constructor
  · intro opts s h
    show (if s = [] ∨ (jsTrim s).length < 2 then earlyResult (.vstr s)
      else detectMain s opts) = _
    rw [if_pos h]
    rfl
  · intro opts v h
    cases v
    case vstr s => exact absurd rfl (h s)
    all_goals rfl

/-- Witness: the guard at the one-letter string and at a number. -/
theorem gb_C8_guard_witness :
    detect (.vstr (str "a")) {} =
      { isGambling := false, confidence := .cnone, checkpoint := 0,
        details := str "Text too short for analysis", comment := .vstr (str "a"),
        analysis := none } ∧
    detect (.vnum 7) {} =
      { isGambling := false, confidence := .cnone, checkpoint := 0,
        details := str "Text too short for analysis", comment := .vnum 7,
        analysis := none } :=
  ⟨gb_C8_guard.1 {} (str "a") (Or.inr (by with_unfolding_all decide)),
   gb_C8_guard.2 {} (.vnum 7) (fun s h => JsVal.noConfusion h)⟩

/-- C10: `detectBatch` maps `detect` over an array element-wise, and wraps
a non-array input into the one-element batch of its string coercion. -/
theorem gb_C10_batch :
    (∀ (l : List JsVal) (opts : DetectOptions),
      detectBatch (.varr l) opts = l.map (fun t => detect t opts)) ∧
    (∀ (v : JsVal) (opts : DetectOptions), (∀ l, v ≠ .varr l) →
      detectBatch v opts = [detect (.vstr (jsString v)) opts]) := by
  constructor
  · intro l opts
    rfl
  · intro v opts h
    cases v
    case varr l => exact absurd rfl (h l)
    all_goals rfl

/-- Witness: the batch at an empty array and at a number. -/
theorem gb_C10_batch_witness :
    detectBatch (.varr ([] : List JsVal)) {} = [] ∧
    detectBatch (.vnum 5) {} = [detect (.vstr (jsString (.vnum 5))) {}] :=
  ⟨(gb_C10_batch.1 [] {}).trans rfl,
   gb_C10_batch.2 (.vnum 5) {} (fun l h => JsVal.noConfusion h)⟩

/-- C5, counterexample: the standard pattern itself produces the match
`"slot88"` from the input `"slot88"`, and the allowlist `["slot"]` does
not exclude it (only the exact case-insensitive match `"SLOT"` is
removed), so an affix-decorated occurrence of an allowlisted term is NOT
filtered out, contrary to the claim. -/
theorem gb_C5_counterexample :
    jsMatchT true standardPatternRegex (str "slot88") = [str "slot88"] ∧
    filterAllowed [str "slot"] [str "slot88"] = [str "slot88"] ∧
    filterAllowed [str "slot"] [str "SLOT"] = [] := by
  refine ⟨?_, ?_, ?_⟩ <;> with_unfolding_all rfl

end GbDetector
